import Mathlib

/-!
Verification development for the CPU core and APU fragments of a Game Boy
emulator.  The Rust sources embedded here are:

  * `cpu/opcodes.rs`   — the load/stack portion of the base opcode dispatch
  * `cpu/interrupts.rs` — the interrupt controller
  * `emulator.rs`      — the machine-state aggregate
  * `apu.rs`, `apu/wave.rs`, `apu/period.rs` — the audio fragments

Machine integers (`u8`, `u16`) are embedded as `Nat` with explicit masking
(`% 256`, `% 65536`, `&&&`) at the points where the Rust code's fixed-width
types wrap or truncate.  Helper modules that the sources call but that are
not part of the excerpt (`cpu/microops.rs`, `cpu/jumps.rs`, `mmu.rs`,
`utils.rs`, `apu/length.rs`, and the pulse/noise channel internals) are
modelled from the specification and carry a doc comment saying so.
-/

/-- Byte store used to model the flat 16-bit memory facade: updating one
address, masking the stored value to a byte (`u8`). -/
def write_mem (m : Nat → Nat) (address value : Nat) : Nat → Nat :=
  fun b => if b = address then value % 256 else m b

/-- Named 8-bit CPU registers, as in `cpu/mod.rs`'s `Register` enum. -/
inductive Register
  | A | B | C | D | E | F | H | L
deriving DecidableEq, Repr

/-- Modelled from the spec: a 16-bit register pair names its high and its low
8-bit backing register (spec 4.1: reads recompose high-byte-first, writes
decompose into the two backing registers).  `cpu/mod.rs` is not in the
excerpt. -/
structure RegisterPair where
  high : Register
  low : Register
deriving DecidableEq, Repr

def REGISTER_AF : RegisterPair := ⟨Register.A, Register.F⟩
def REGISTER_BC : RegisterPair := ⟨Register.B, Register.C⟩
def REGISTER_DE : RegisterPair := ⟨Register.D, Register.E⟩
def REGISTER_HL : RegisterPair := ⟨Register.H, Register.L⟩

/-- Register file: eight 8-bit slots plus the two 16-bit counters
(spec section 3, `cpu/mod.rs`). -/
structure Registers where
  a : Nat
  b : Nat
  c : Nat
  d : Nat
  e : Nat
  f : Nat
  h : Nat
  l : Nat
  program_counter : Nat
  stack_pointer : Nat
deriving DecidableEq, Repr

/-- Per-instruction clock counter (spec section 4.4). -/
structure CpuClock where
  instruction_clock_cycles : Nat
deriving DecidableEq, Repr

/-- CPU-side interrupt master enable: the global interrupt-enable gate
(`emulator.cpu.interrupts.enabled` in `cpu/interrupts.rs`). -/
structure CpuInterrupts where
  enabled : Bool
deriving DecidableEq, Repr

/-- CPU state: register file, clock, global interrupt gate, and the byte
memory reachable from it (as `cpu/opcodes.rs` reads memory through
`cpu_state`). -/
structure CpuState where
  registers : Registers
  clock : CpuClock
  interrupts : CpuInterrupts
  memory : Nat → Nat

/-- Well-formedness of a register file as a Rust value: every 8-bit slot
holds a byte and both counters hold 16-bit values. -/
def RegistersWf (r : Registers) : Prop :=
  r.a < 256 ∧ r.b < 256 ∧ r.c < 256 ∧ r.d < 256 ∧ r.e < 256 ∧ r.f < 256 ∧
    r.h < 256 ∧ r.l < 256 ∧ r.program_counter < 65536 ∧ r.stack_pointer < 65536

instance (r : Registers) : Decidable (RegistersWf r) := by
  unfold RegistersWf; infer_instance

/-- Modelled from the spec: cycle accounting helper of `cpu/microops.rs`
(not in the excerpt).  Costs are counted in machine cycles (glossary). -/
def add_cycles (cpu : CpuState) (n : Nat) : CpuState :=
  { cpu with clock := ⟨cpu.clock.instruction_clock_cycles + n⟩ }

/-- Modelled from the spec: `microops::read_byte_from_memory` (file not in
the excerpt).  Reads one byte through the memory facade (spec section 6)
and charges one machine cycle. -/
def read_byte_from_memory (cpu : CpuState) (address : Nat) : Nat × CpuState :=
  (cpu.memory address % 256, add_cycles cpu 1)

/-- Modelled from the spec: `microops::store_byte_in_memory` (file not in
the excerpt).  Writes one byte through the memory facade and charges one
machine cycle. -/
def store_byte_in_memory (cpu : CpuState) (address value : Nat) : CpuState :=
  add_cycles { cpu with memory := write_mem cpu.memory address value } 1

/-- Modelled from the spec: `microops::read_word_from_memory` — two
sequential byte reads combined little-endian (spec section 6). -/
def read_word_from_memory (cpu : CpuState) (address : Nat) : Nat × CpuState :=
  let p1 := read_byte_from_memory cpu address
  let p2 := read_byte_from_memory p1.2 ((address + 1) % 65536)
  (p2.1 * 256 + p1.1, p2.2)

/-- Modelled from the spec: `microops::store_word_in_memory` — two
sequential byte writes, little-endian (low byte at the lower address). -/
def store_word_in_memory (cpu : CpuState) (address word : Nat) : CpuState :=
  let c1 := store_byte_in_memory cpu address (word % 256)
  store_byte_in_memory c1 ((address + 1) % 65536) (word / 256 % 256)

/-- Modelled from the spec: `microops::read_from_register`.  The flag
register's bottom four bits are always read as zero regardless of what was
written (spec section 3). -/
def read_from_register (cpu : CpuState) : Register → Nat
  | Register.A => cpu.registers.a
  | Register.B => cpu.registers.b
  | Register.C => cpu.registers.c
  | Register.D => cpu.registers.d
  | Register.E => cpu.registers.e
  | Register.F => cpu.registers.f &&& 0xF0
  | Register.H => cpu.registers.h
  | Register.L => cpu.registers.l

/-- Modelled from the spec: `microops::store_in_register`.  The stored value
is a `u8` (masked to a byte); writing the flag register masks its bottom
four bits to zero (spec section 4.1). -/
def store_in_register (cpu : CpuState) (r : Register) (value : Nat) : CpuState :=
  match r with
  | Register.A => { cpu with registers := { cpu.registers with a := value % 256 } }
  | Register.B => { cpu with registers := { cpu.registers with b := value % 256 } }
  | Register.C => { cpu with registers := { cpu.registers with c := value % 256 } }
  | Register.D => { cpu with registers := { cpu.registers with d := value % 256 } }
  | Register.E => { cpu with registers := { cpu.registers with e := value % 256 } }
  | Register.F => { cpu with registers := { cpu.registers with f := value % 256 &&& 0xF0 } }
  | Register.H => { cpu with registers := { cpu.registers with h := value % 256 } }
  | Register.L => { cpu with registers := { cpu.registers with l := value % 256 } }

/-- Modelled from the spec: `microops::read_from_register_pair` — reads
recompose the two backing registers high-byte-first (spec section 4.1). -/
def read_from_register_pair (cpu : CpuState) (pair : RegisterPair) : Nat :=
  read_from_register cpu pair.high * 256 + read_from_register cpu pair.low

/-- Modelled from the spec: `microops::store_in_register_pair` — writes
decompose into the two backing 8-bit registers (spec section 4.1); the
`u8` casts truncate each half. -/
def store_in_register_pair (cpu : CpuState) (pair : RegisterPair) (word : Nat) : CpuState :=
  let c1 := store_in_register cpu pair.high (word / 256)
  store_in_register c1 pair.low word

/-- Modelled from the spec: `microops::run_extra_machine_cycle` — the flat
extra internal-bus cycle charged by some instructions (spec section 4.2). -/
def run_extra_machine_cycle (cpu : CpuState) : CpuState :=
  add_cycles cpu 1

/-- Modelled from the spec: flag setter for Zero (bit 7 of the flag
register), `cpu/microops.rs`. -/
def set_flag_z (cpu : CpuState) (b : Bool) : CpuState :=
  { cpu with registers :=
    { cpu.registers with f := if b then cpu.registers.f ||| 0x80 else cpu.registers.f &&& 0x7F } }

/-- Modelled from the spec: flag setter for Subtract/Negate (bit 6). -/
def set_flag_n (cpu : CpuState) (b : Bool) : CpuState :=
  { cpu with registers :=
    { cpu.registers with f := if b then cpu.registers.f ||| 0x40 else cpu.registers.f &&& 0xBF } }

/-- Modelled from the spec: flag setter for Half-carry (bit 5). -/
def set_flag_h (cpu : CpuState) (b : Bool) : CpuState :=
  { cpu with registers :=
    { cpu.registers with f := if b then cpu.registers.f ||| 0x20 else cpu.registers.f &&& 0xDF } }

/-- Modelled from the spec: flag setter for Carry (bit 4). -/
def set_flag_c (cpu : CpuState) (b : Bool) : CpuState :=
  { cpu with registers :=
    { cpu.registers with f := if b then cpu.registers.f ||| 0x10 else cpu.registers.f &&& 0xEF } }

/-- Flag readout used in theorem statements: Zero is bit 7 of the flag
register. -/
def get_flag_z (cpu : CpuState) : Bool := cpu.registers.f.testBit 7

/-- Flag readout: Subtract/Negate is bit 6 of the flag register. -/
def get_flag_n (cpu : CpuState) : Bool := cpu.registers.f.testBit 6

/-- Flag readout: Half-carry is bit 5 of the flag register. -/
def get_flag_h (cpu : CpuState) : Bool := cpu.registers.f.testBit 5

/-- Flag readout: Carry is bit 4 of the flag register. -/
def get_flag_c (cpu : CpuState) : Bool := cpu.registers.f.testBit 4

/-- Translation of `opcodes.rs::read_next_instruction_byte`: read the byte at
the program counter, then advance the program counter by one with 16-bit
wraparound (`u16` increment). -/
def read_next_instruction_byte (cpu : CpuState) : Nat × CpuState :=
  let p := read_byte_from_memory cpu cpu.registers.program_counter
  (p.1, { p.2 with registers :=
    { p.2.registers with program_counter := (p.2.registers.program_counter + 1) % 65536 } })

/-- Translation of `opcodes.rs::read_next_instruction_word`: read the word at
the program counter, then advance the program counter by two. -/
def read_next_instruction_word (cpu : CpuState) : Nat × CpuState :=
  let p := read_word_from_memory cpu cpu.registers.program_counter
  (p.1, { p.2 with registers :=
    { p.2.registers with program_counter := (p.2.registers.program_counter + 2) % 65536 } })

/-- Translation of `opcodes.rs::load_immediate_value`. -/
def load_immediate_value (cpu : CpuState) (register : Register) : CpuState :=
  let p := read_next_instruction_byte cpu
  store_in_register p.2 register p.1

/-- Translation of `opcodes.rs::load_source_register_in_destination_register`. -/
def load_source_register_in_destination_register
    (cpu : CpuState) (source destination : Register) : CpuState :=
  store_in_register cpu destination (read_from_register cpu source)

/-- Translation of `opcodes.rs::load_memory_byte_in_destination_register`. -/
def load_memory_byte_in_destination_register
    (cpu : CpuState) (address : Nat) (destination : Register) : CpuState :=
  let p := read_byte_from_memory cpu address
  store_in_register p.2 destination p.1

/-- Translation of `opcodes.rs::load_source_register_in_memory`. -/
def load_source_register_in_memory
    (cpu : CpuState) (source : Register) (address : Nat) : CpuState :=
  store_byte_in_memory cpu address (read_from_register cpu source)

/-- Translation of `opcodes.rs::load_immediate_value_in_memory`. -/
def load_immediate_value_in_memory (cpu : CpuState) (register_pair : RegisterPair) : CpuState :=
  let address := read_from_register_pair cpu register_pair
  let p := read_next_instruction_byte cpu
  store_byte_in_memory p.2 address p.1

/-- Translation of `opcodes.rs::push_register_pair_to_stack`: decrement the
stack pointer (with `u16` wraparound), write the high byte, decrement again,
write the low byte, and charge the flat extra machine cycle. -/
def push_register_pair_to_stack (cpu : CpuState) (register_pair : RegisterPair) : CpuState :=
  let word := read_from_register_pair cpu register_pair
  let sp1 := (cpu.registers.stack_pointer + 65535) % 65536
  let c1 := { cpu with registers := { cpu.registers with stack_pointer := sp1 } }
  let c2 := store_byte_in_memory c1 sp1 (word >>> 8)
  let sp2 := (c2.registers.stack_pointer + 65535) % 65536
  let c3 := { c2 with registers := { c2.registers with stack_pointer := sp2 } }
  let c4 := store_byte_in_memory c3 sp2 (word &&& 0xFF)
  run_extra_machine_cycle c4

/-- Translation of `opcodes.rs::pop_word_into_register_pair_from_stack`: read
the low byte then the high byte from ascending addresses, incrementing the
stack pointer after each read (with `u16` wraparound), and recombine. -/
def pop_word_into_register_pair_from_stack
    (cpu : CpuState) (register_pair : RegisterPair) : CpuState :=
  let p1 := read_byte_from_memory cpu cpu.registers.stack_pointer
  let c1 := { p1.2 with registers :=
    { p1.2.registers with stack_pointer := (p1.2.registers.stack_pointer + 1) % 65536 } }
  let p2 := read_byte_from_memory c1 c1.registers.stack_pointer
  let c2 := { p2.2 with registers :=
    { p2.2.registers with stack_pointer := (p2.2.registers.stack_pointer + 1) % 65536 } }
  store_in_register_pair c2 register_pair ((p2.1 <<< 8) + p1.1)
/-- Translation of the body of `opcodes.rs::execute_opcode`, the base
dispatch table, as a decision chain in the same arm order as the Rust
`match`.  `cpu` is the state after the opcode fetch; the final `else` is
the wildcard arm `_ => ()`. -/
def dispatch_opcode (opcode : Nat) (cpu : CpuState) : CpuState :=
  if opcode = 0x00 then cpu
  else if opcode = 0x01 then (let p := read_next_instruction_word cpu; store_in_register_pair p.2 REGISTER_BC p.1)
  else if opcode = 0x02 then (let address := read_from_register_pair cpu REGISTER_BC; load_source_register_in_memory cpu Register.A address)
  else if opcode = 0x06 then load_immediate_value cpu Register.B
  else if opcode = 0x08 then (let p := read_next_instruction_word cpu; store_word_in_memory p.2 p.1 p.2.registers.stack_pointer)
  else if opcode = 0x0a then (let address := read_from_register_pair cpu REGISTER_BC; load_memory_byte_in_destination_register cpu address Register.A)
  else if opcode = 0x0e then load_immediate_value cpu Register.C
  else if opcode = 0x11 then (let p := read_next_instruction_word cpu; store_in_register_pair p.2 REGISTER_DE p.1)
  else if opcode = 0x12 then (let address := read_from_register_pair cpu REGISTER_DE; load_source_register_in_memory cpu Register.A address)
  else if opcode = 0x16 then load_immediate_value cpu Register.D
  else if opcode = 0x1a then (let address := read_from_register_pair cpu REGISTER_DE; load_memory_byte_in_destination_register cpu address Register.A)
  else if opcode = 0x1e then load_immediate_value cpu Register.E
  else if opcode = 0x21 then (let p := read_next_instruction_word cpu; store_in_register_pair p.2 REGISTER_HL p.1)
  else if opcode = 0x22 then (let address := read_from_register_pair cpu REGISTER_HL; let c1 := load_source_register_in_memory cpu Register.A address; store_in_register_pair c1 REGISTER_HL ((address + 1) % 65536))
  else if opcode = 0x26 then load_immediate_value cpu Register.H
  else if opcode = 0x2a then (let address := read_from_register_pair cpu REGISTER_HL; let c1 := load_memory_byte_in_destination_register cpu address Register.A; store_in_register_pair c1 REGISTER_HL ((address + 1) % 65536))
  else if opcode = 0x2e then load_immediate_value cpu Register.L
  else if opcode = 0x31 then (let p := read_next_instruction_word cpu; { p.2 with registers := { p.2.registers with stack_pointer := p.1 } })
  else if opcode = 0x32 then (let address := read_from_register_pair cpu REGISTER_HL; let c1 := load_source_register_in_memory cpu Register.A address; store_in_register_pair c1 REGISTER_HL ((address + 65535) % 65536))
  else if opcode = 0x36 then load_immediate_value_in_memory cpu REGISTER_HL
  else if opcode = 0x3a then (let address := read_from_register_pair cpu REGISTER_HL; let c1 := load_memory_byte_in_destination_register cpu address Register.A; store_in_register_pair c1 REGISTER_HL ((address + 65535) % 65536))
  else if opcode = 0x3e then load_immediate_value cpu Register.A
  else if opcode = 0x40 then load_source_register_in_destination_register cpu Register.B Register.B
  else if opcode = 0x41 then load_source_register_in_destination_register cpu Register.C Register.B
  else if opcode = 0x42 then load_source_register_in_destination_register cpu Register.D Register.B
  else if opcode = 0x43 then load_source_register_in_destination_register cpu Register.E Register.B
  else if opcode = 0x44 then load_source_register_in_destination_register cpu Register.H Register.B
  else if opcode = 0x45 then load_source_register_in_destination_register cpu Register.L Register.B
  else if opcode = 0x46 then (let address := read_from_register_pair cpu REGISTER_HL; load_memory_byte_in_destination_register cpu address Register.B)
  else if opcode = 0x47 then load_source_register_in_destination_register cpu Register.A Register.B
  else if opcode = 0x48 then load_source_register_in_destination_register cpu Register.B Register.C
  else if opcode = 0x49 then load_source_register_in_destination_register cpu Register.C Register.C
  else if opcode = 0x4a then load_source_register_in_destination_register cpu Register.D Register.C
  else if opcode = 0x4b then load_source_register_in_destination_register cpu Register.E Register.C
  else if opcode = 0x4c then load_source_register_in_destination_register cpu Register.H Register.C
  else if opcode = 0x4d then load_source_register_in_destination_register cpu Register.L Register.C
  else if opcode = 0x4e then (let address := read_from_register_pair cpu REGISTER_HL; load_memory_byte_in_destination_register cpu address Register.C)
  else if opcode = 0x4f then load_source_register_in_destination_register cpu Register.A Register.C
  else if opcode = 0x50 then load_source_register_in_destination_register cpu Register.B Register.D
  else if opcode = 0x51 then load_source_register_in_destination_register cpu Register.C Register.D
  else if opcode = 0x52 then load_source_register_in_destination_register cpu Register.D Register.D
  else if opcode = 0x53 then load_source_register_in_destination_register cpu Register.E Register.D
  else if opcode = 0x54 then load_source_register_in_destination_register cpu Register.H Register.D
  else if opcode = 0x55 then load_source_register_in_destination_register cpu Register.L Register.D
  else if opcode = 0x56 then (let address := read_from_register_pair cpu REGISTER_HL; load_memory_byte_in_destination_register cpu address Register.D)
  else if opcode = 0x57 then load_source_register_in_destination_register cpu Register.A Register.D
  else if opcode = 0x58 then load_source_register_in_destination_register cpu Register.B Register.E
  else if opcode = 0x59 then load_source_register_in_destination_register cpu Register.C Register.E
  else if opcode = 0x5a then load_source_register_in_destination_register cpu Register.D Register.E
  else if opcode = 0x5b then load_source_register_in_destination_register cpu Register.E Register.E
  else if opcode = 0x5c then load_source_register_in_destination_register cpu Register.H Register.E
  else if opcode = 0x5d then load_source_register_in_destination_register cpu Register.L Register.E
  else if opcode = 0x5e then (let address := read_from_register_pair cpu REGISTER_HL; load_memory_byte_in_destination_register cpu address Register.E)
  else if opcode = 0x5f then load_source_register_in_destination_register cpu Register.A Register.E
  else if opcode = 0x60 then load_source_register_in_destination_register cpu Register.B Register.H
  else if opcode = 0x61 then load_source_register_in_destination_register cpu Register.C Register.H
  else if opcode = 0x62 then load_source_register_in_destination_register cpu Register.D Register.H
  else if opcode = 0x63 then load_source_register_in_destination_register cpu Register.E Register.H
  else if opcode = 0x64 then load_source_register_in_destination_register cpu Register.H Register.H
  else if opcode = 0x65 then load_source_register_in_destination_register cpu Register.L Register.H
  else if opcode = 0x66 then (let address := read_from_register_pair cpu REGISTER_HL; load_memory_byte_in_destination_register cpu address Register.H)
  else if opcode = 0x67 then load_source_register_in_destination_register cpu Register.A Register.H
  else if opcode = 0x68 then load_source_register_in_destination_register cpu Register.B Register.L
  else if opcode = 0x69 then load_source_register_in_destination_register cpu Register.C Register.L
  else if opcode = 0x6a then load_source_register_in_destination_register cpu Register.D Register.L
  else if opcode = 0x6b then load_source_register_in_destination_register cpu Register.E Register.L
  else if opcode = 0x6c then load_source_register_in_destination_register cpu Register.H Register.L
  else if opcode = 0x6d then load_source_register_in_destination_register cpu Register.L Register.L
  else if opcode = 0x6e then (let address := read_from_register_pair cpu REGISTER_HL; load_memory_byte_in_destination_register cpu address Register.L)
  else if opcode = 0x6f then load_source_register_in_destination_register cpu Register.A Register.L
  else if opcode = 0x70 then (let address := read_from_register_pair cpu REGISTER_HL; load_source_register_in_memory cpu Register.B address)
  else if opcode = 0x71 then (let address := read_from_register_pair cpu REGISTER_HL; load_source_register_in_memory cpu Register.C address)
  else if opcode = 0x72 then (let address := read_from_register_pair cpu REGISTER_HL; load_source_register_in_memory cpu Register.D address)
  else if opcode = 0x73 then (let address := read_from_register_pair cpu REGISTER_HL; load_source_register_in_memory cpu Register.E address)
  else if opcode = 0x74 then (let address := read_from_register_pair cpu REGISTER_HL; load_source_register_in_memory cpu Register.H address)
  else if opcode = 0x75 then (let address := read_from_register_pair cpu REGISTER_HL; load_source_register_in_memory cpu Register.L address)
  else if opcode = 0x77 then (let address := read_from_register_pair cpu REGISTER_HL; load_source_register_in_memory cpu Register.A address)
  else if opcode = 0x78 then load_source_register_in_destination_register cpu Register.B Register.A
  else if opcode = 0x79 then load_source_register_in_destination_register cpu Register.C Register.A
  else if opcode = 0x7a then load_source_register_in_destination_register cpu Register.D Register.A
  else if opcode = 0x7b then load_source_register_in_destination_register cpu Register.E Register.A
  else if opcode = 0x7c then load_source_register_in_destination_register cpu Register.H Register.A
  else if opcode = 0x7d then load_source_register_in_destination_register cpu Register.L Register.A
  else if opcode = 0x7e then (let address := read_from_register_pair cpu REGISTER_HL; load_memory_byte_in_destination_register cpu address Register.A)
  else if opcode = 0x7f then load_source_register_in_destination_register cpu Register.A Register.A
  else if opcode = 0xc1 then pop_word_into_register_pair_from_stack cpu REGISTER_BC
  else if opcode = 0xc5 then push_register_pair_to_stack cpu REGISTER_BC
  else if opcode = 0xd1 then pop_word_into_register_pair_from_stack cpu REGISTER_DE
  else if opcode = 0xd5 then push_register_pair_to_stack cpu REGISTER_DE
  else if opcode = 0xe0 then (let p := read_next_instruction_byte cpu; load_source_register_in_memory p.2 Register.A (0xFF00 + p.1))
  else if opcode = 0xe1 then pop_word_into_register_pair_from_stack cpu REGISTER_HL
  else if opcode = 0xe2 then load_source_register_in_memory cpu Register.A (0xFF00 + read_from_register cpu Register.C)
  else if opcode = 0xe5 then push_register_pair_to_stack cpu REGISTER_HL
  else if opcode = 0xea then (let p := read_next_instruction_word cpu; load_source_register_in_memory p.2 Register.A p.1)
  else if opcode = 0xf0 then (let p := read_next_instruction_byte cpu; load_memory_byte_in_destination_register p.2 (0xFF00 + p.1) Register.A)
  else if opcode = 0xf1 then pop_word_into_register_pair_from_stack cpu REGISTER_AF
  else if opcode = 0xf2 then load_memory_byte_in_destination_register cpu (0xFF00 + read_from_register cpu Register.C) Register.A
  else if opcode = 0xf5 then push_register_pair_to_stack cpu REGISTER_AF
  else if opcode = 0xf8 then (let p := read_next_instruction_byte cpu; let sb := if p.1 < 128 then p.1 else 65280 + p.1; let sum := (p.2.registers.stack_pointer + sb) % 65536; let c1 := store_in_register_pair p.2 REGISTER_HL sum; let c2 := set_flag_z c1 false; let c3 := set_flag_n c2 false; let c4 := set_flag_h c3 (decide (sum &&& 0xF < c3.registers.stack_pointer &&& 0xF)); let c5 := set_flag_c c4 (decide (sum &&& 0xFF < c4.registers.stack_pointer &&& 0xFF)); run_extra_machine_cycle c5)
  else if opcode = 0xf9 then (let word := read_from_register_pair cpu REGISTER_HL; run_extra_machine_cycle { cpu with registers := { cpu.registers with stack_pointer := word } })
  else if opcode = 0xfa then (let p := read_next_instruction_word cpu; load_memory_byte_in_destination_register p.2 p.1 Register.A)
  else cpu

/-- Translation of `opcodes.rs::execute_opcode`: fetch one opcode byte at
the program counter (auto-incrementing it) and dispatch on it. -/
def execute_opcode (cpu : CpuState) : CpuState :=
  let fetched := read_next_instruction_byte cpu
  dispatch_opcode fetched.1 fetched.2

/-- Opcode byte values carrying a defined instruction in the base dispatch
table of `opcodes.rs::execute_opcode`; every other byte value reaches the
wildcard arm. -/
def mapped_opcodes : List Nat :=
  [0x00, 0x01, 0x02, 0x06, 0x08, 0x0a, 0x0e, 0x11, 0x12, 0x16, 0x1a, 0x1e,
   0x21, 0x22, 0x26, 0x2a, 0x2e, 0x31, 0x32, 0x36, 0x3a, 0x3e, 0x40, 0x41,
   0x42, 0x43, 0x44, 0x45, 0x46, 0x47, 0x48, 0x49, 0x4a, 0x4b, 0x4c, 0x4d,
   0x4e, 0x4f, 0x50, 0x51, 0x52, 0x53, 0x54, 0x55, 0x56, 0x57, 0x58, 0x59,
   0x5a, 0x5b, 0x5c, 0x5d, 0x5e, 0x5f, 0x60, 0x61, 0x62, 0x63, 0x64, 0x65,
   0x66, 0x67, 0x68, 0x69, 0x6a, 0x6b, 0x6c, 0x6d, 0x6e, 0x6f, 0x70, 0x71,
   0x72, 0x73, 0x74, 0x75, 0x77, 0x78, 0x79, 0x7a, 0x7b, 0x7c, 0x7d, 0x7e,
   0x7f, 0xc1, 0xc5, 0xd1, 0xd5, 0xe0, 0xe1, 0xe2, 0xe5, 0xea, 0xf0, 0xf1,
   0xf2, 0xf5, 0xf8, 0xf9, 0xfa]

/-- Unmapped opcode bytes fall through the whole decision chain: the
dispatch is a no-op on the machine state. -/
theorem dispatch_opcode_unmapped (opcode : Nat) (cpu : CpuState)
    (h : opcode ∉ mapped_opcodes) : dispatch_opcode opcode cpu = cpu := by
  have hne : ∀ k ∈ mapped_opcodes, opcode ≠ k := fun k hk heq => h (heq ▸ hk)
  simp only [dispatch_opcode]
  rw [if_neg (hne 0x00 (by decide)),
    if_neg (hne 0x01 (by decide)),
    if_neg (hne 0x02 (by decide)),
    if_neg (hne 0x06 (by decide)),
    if_neg (hne 0x08 (by decide)),
    if_neg (hne 0x0a (by decide)),
    if_neg (hne 0x0e (by decide)),
    if_neg (hne 0x11 (by decide)),
    if_neg (hne 0x12 (by decide)),
    if_neg (hne 0x16 (by decide)),
    if_neg (hne 0x1a (by decide)),
    if_neg (hne 0x1e (by decide)),
    if_neg (hne 0x21 (by decide)),
    if_neg (hne 0x22 (by decide)),
    if_neg (hne 0x26 (by decide)),
    if_neg (hne 0x2a (by decide)),
    if_neg (hne 0x2e (by decide)),
    if_neg (hne 0x31 (by decide)),
    if_neg (hne 0x32 (by decide)),
    if_neg (hne 0x36 (by decide)),
    if_neg (hne 0x3a (by decide)),
    if_neg (hne 0x3e (by decide)),
    if_neg (hne 0x40 (by decide)),
    if_neg (hne 0x41 (by decide)),
    if_neg (hne 0x42 (by decide)),
    if_neg (hne 0x43 (by decide)),
    if_neg (hne 0x44 (by decide)),
    if_neg (hne 0x45 (by decide)),
    if_neg (hne 0x46 (by decide)),
    if_neg (hne 0x47 (by decide)),
    if_neg (hne 0x48 (by decide)),
    if_neg (hne 0x49 (by decide)),
    if_neg (hne 0x4a (by decide)),
    if_neg (hne 0x4b (by decide)),
    if_neg (hne 0x4c (by decide)),
    if_neg (hne 0x4d (by decide)),
    if_neg (hne 0x4e (by decide)),
    if_neg (hne 0x4f (by decide)),
    if_neg (hne 0x50 (by decide)),
    if_neg (hne 0x51 (by decide)),
    if_neg (hne 0x52 (by decide)),
    if_neg (hne 0x53 (by decide)),
    if_neg (hne 0x54 (by decide)),
    if_neg (hne 0x55 (by decide)),
    if_neg (hne 0x56 (by decide)),
    if_neg (hne 0x57 (by decide)),
    if_neg (hne 0x58 (by decide)),
    if_neg (hne 0x59 (by decide)),
    if_neg (hne 0x5a (by decide)),
    if_neg (hne 0x5b (by decide)),
    if_neg (hne 0x5c (by decide)),
    if_neg (hne 0x5d (by decide)),
    if_neg (hne 0x5e (by decide)),
    if_neg (hne 0x5f (by decide)),
    if_neg (hne 0x60 (by decide)),
    if_neg (hne 0x61 (by decide)),
    if_neg (hne 0x62 (by decide)),
    if_neg (hne 0x63 (by decide)),
    if_neg (hne 0x64 (by decide)),
    if_neg (hne 0x65 (by decide)),
    if_neg (hne 0x66 (by decide)),
    if_neg (hne 0x67 (by decide)),
    if_neg (hne 0x68 (by decide)),
    if_neg (hne 0x69 (by decide)),
    if_neg (hne 0x6a (by decide)),
    if_neg (hne 0x6b (by decide)),
    if_neg (hne 0x6c (by decide)),
    if_neg (hne 0x6d (by decide)),
    if_neg (hne 0x6e (by decide)),
    if_neg (hne 0x6f (by decide)),
    if_neg (hne 0x70 (by decide)),
    if_neg (hne 0x71 (by decide)),
    if_neg (hne 0x72 (by decide)),
    if_neg (hne 0x73 (by decide)),
    if_neg (hne 0x74 (by decide)),
    if_neg (hne 0x75 (by decide)),
    if_neg (hne 0x77 (by decide)),
    if_neg (hne 0x78 (by decide)),
    if_neg (hne 0x79 (by decide)),
    if_neg (hne 0x7a (by decide)),
    if_neg (hne 0x7b (by decide)),
    if_neg (hne 0x7c (by decide)),
    if_neg (hne 0x7d (by decide)),
    if_neg (hne 0x7e (by decide)),
    if_neg (hne 0x7f (by decide)),
    if_neg (hne 0xc1 (by decide)),
    if_neg (hne 0xc5 (by decide)),
    if_neg (hne 0xd1 (by decide)),
    if_neg (hne 0xd5 (by decide)),
    if_neg (hne 0xe0 (by decide)),
    if_neg (hne 0xe1 (by decide)),
    if_neg (hne 0xe2 (by decide)),
    if_neg (hne 0xe5 (by decide)),
    if_neg (hne 0xea (by decide)),
    if_neg (hne 0xf0 (by decide)),
    if_neg (hne 0xf1 (by decide)),
    if_neg (hne 0xf2 (by decide)),
    if_neg (hne 0xf5 (by decide)),
    if_neg (hne 0xf8 (by decide)),
    if_neg (hne 0xf9 (by decide)),
    if_neg (hne 0xfa (by decide))]


/-- Translation of `apu/period.rs::Period`. -/
structure Period where
  low : Nat
  high : Nat
  divider : Nat
deriving DecidableEq, Repr

/-- Translation of `apu/period.rs::initalize_period` (the source spells it
without the second i). -/
def initalize_period : Period :=
  { low := 0, high := 0, divider := 0 }

/-- Translation of `apu/period.rs::calculate_period_value`. -/
def calculate_period_value (period : Period) : Nat :=
  let period_high_bits := period.high &&& 0b111
  let period_low_bits := period.low
  (period_high_bits <<< 8) ||| period_low_bits

/-- Translation of `apu/period.rs::calculate_period_divider`. -/
def calculate_period_divider (period : Period) : Nat :=
  2048 - calculate_period_value period

namespace Period

/-- Translation of `apu/period.rs::step`.  The Rust loop decrements the `u16`
divider `divider_increment` times; the decrement `period.divider -= 1` is
unguarded, so a decrement attempted with the divider at zero is a `u16`
underflow fault, modelled as `none`.  The `handle_divider_reload` callback
is the `reload` function threaded over the accumulator `acc`. -/
def step {α : Type} (period : Period) (reload : α → α) (acc : α) :
    Nat → Option (Period × α)
  | 0 => some (period, acc)
  | Nat.succ n =>
    if period.divider = 0 then none
    else
      let d := period.divider - 1
      if d = 0 then
        Period.step { period with divider := calculate_period_divider period } reload (reload acc) n
      else
        Period.step { period with divider := d } reload acc n

end Period

/-- Modelled from the spec: `utils::is_bit_set` (`utils.rs` is not in the
excerpt) — tests one bit of a byte value. -/
def is_bit_set (value : Nat) (index : Nat) : Bool :=
  value.testBit index

/-- Modelled from the spec: `utils::set_bit` — sets one bit of a byte. -/
def set_bit (value : Nat) (index : Nat) : Nat :=
  value ||| (1 <<< index)

/-- Modelled from the spec: `utils::reset_bit` — clears one bit of a byte
(`u8` complement mask). -/
def reset_bit (value : Nat) (index : Nat) : Nat :=
  value &&& (0xFF ^^^ (1 <<< index))

/-- Modelled from the spec: `utils::get_bit` — one bit of a value as 0/1. -/
def get_bit (value : Nat) (index : Nat) : Nat :=
  (value >>> index) &&& 1

/-- Modelled from the spec: `apu/utils.rs::bounded_wrapping_add` — increment
wrapping back to zero past the bound (used for the 0..31 wave position and
the 0..7 APU divider). -/
def bounded_wrapping_add (value bound : Nat) : Nat :=
  if value + 1 > bound then 0 else value + 1

/-- Modelled from the spec: `apu/length.rs::Length` (file not in the
excerpt); audio length-counter state machines are out of scope (spec
section 1), so only the `timer` field the embedded code touches is kept. -/
structure Length where
  timer : Nat
deriving DecidableEq, Repr

/-- Modelled from the spec: `length::initialize_length`. -/
def initialize_length : Length :=
  { timer := 0 }

/-- Modelled from the spec: `length::reload_wave_channel_timer_with_maximum`
— reloads the wave channel's length timer with its maximum value. -/
def reload_wave_channel_timer_with_maximum (length : Length) : Length :=
  { length with timer := 256 }

/-- Modelled from the spec: `length::at_max_wave_channel_length`. -/
def at_max_wave_channel_length (length : Length) : Bool :=
  length.timer == 256

/-- Translation of `apu/wave.rs::WaveChannel`. -/
structure WaveChannel where
  enabled : Bool
  dac_enabled : Bool
  length : Length
  volume : Nat
  period : Period
  wave_position : Nat
deriving DecidableEq, Repr

/-- Translation of `apu/wave.rs::initialize_wave_channel`. -/
def initialize_wave_channel : WaveChannel :=
  { enabled := false
    dac_enabled := false
    length := initialize_length
    volume := 0
    period := initalize_period
    wave_position := 0 }

def MAX_WAVE_SAMPLE_STEPS : Nat := 31

def PERIOD_HIGH_TRIGGER_INDEX : Nat := 7

namespace Wave

/-- Translation of `apu/wave.rs::step`: when the channel is enabled, step the
period divider `cycles / 2` times, advancing the wave position on each
divider reload.  `none` propagates a divider underflow fault. -/
def step (channel : WaveChannel) (last_instruction_clock_cycles : Nat) :
    Option WaveChannel :=
  if channel.enabled then
    match Period.step channel.period
        (fun pos => bounded_wrapping_add pos MAX_WAVE_SAMPLE_STEPS)
        channel.wave_position (last_instruction_clock_cycles / 2) with
    | none => none
    | some (p, pos) => some { channel with period := p, wave_position := pos }
  else some channel

/-- Translation of `apu/wave.rs::trigger`: enables the channel when its DAC
is enabled and reloads the length timer; the period divider is left as it
was. -/
def trigger (channel : WaveChannel) : WaveChannel :=
  let c1 := if channel.dac_enabled then { channel with enabled := true } else channel
  { c1 with length := reload_wave_channel_timer_with_maximum c1.length }

/-- Translation of `apu/wave.rs::disable`. -/
def disable (channel : WaveChannel) : WaveChannel :=
  { channel with enabled := false }

/-- Translation of `apu/wave.rs::should_trigger`. -/
def should_trigger (channel : WaveChannel) : Bool :=
  is_bit_set channel.period.high PERIOD_HIGH_TRIGGER_INDEX

end Wave

/-- Modelled from the spec: envelope state of the pulse/noise channels
(`apu/envelope.rs` is not in the excerpt; channel synthesis is out of scope,
spec section 1).  Only the field the embedded `apu.rs` writes is kept. -/
structure Envelope where
  initial_settings : Nat
deriving DecidableEq, Repr

/-- Modelled from the spec: pulse channel state (`apu/pulse.rs` not in the
excerpt); only the fields the embedded `apu.rs` touches are kept. -/
structure PulseChannel where
  enabled : Bool
  dac_enabled : Bool
  envelope : Envelope
  period : Period
deriving DecidableEq, Repr

/-- Modelled from the spec: `pulse::initialize_pulse_channel` — power-on
state of a pulse channel. -/
def initialize_pulse_channel : PulseChannel :=
  { enabled := false
    dac_enabled := false
    envelope := { initial_settings := 0 }
    period := initalize_period }

/-- Modelled from the spec: noise channel state (`apu/noise.rs` not in the
excerpt); only the fields the embedded `apu.rs` touches are kept. -/
structure NoiseChannel where
  enabled : Bool
  dac_enabled : Bool
  envelope : Envelope
  control : Nat
deriving DecidableEq, Repr

/-- Modelled from the spec: `noise::initialize_noise_channel` — power-on
state of the noise channel. -/
def initialize_noise_channel : NoiseChannel :=
  { enabled := false
    dac_enabled := false
    envelope := { initial_settings := 0 }
    control := 0 }

/-- Translation of `apu.rs::ApuState`. -/
structure ApuState where
  audio_master_control : Nat
  sound_panning : Nat
  master_volume : Nat
  channel1 : PulseChannel
  channel2 : PulseChannel
  channel3 : WaveChannel
  channel4 : NoiseChannel
  divider_apu : Nat
  last_divider_time : Nat
  instruction_cycles : Nat
  left_sample_queue : List Float
  right_sample_queue : List Float

/-- Translation of `apu.rs::initialize_apu`: the power-on APU state. -/
def initialize_apu : ApuState :=
  { audio_master_control := 0
    sound_panning := 0
    master_volume := 0
    channel1 := initialize_pulse_channel
    channel2 := initialize_pulse_channel
    channel3 := initialize_wave_channel
    channel4 := initialize_noise_channel
    divider_apu := 0
    last_divider_time := 0
    instruction_cycles := 0
    left_sample_queue := []
    right_sample_queue := [] }

/-- Translation of `cpu/interrupts.rs::InterruptRegisters`: the `enabled`
and `flags` interrupt masks (`u8` values). -/
structure InterruptRegisters where
  enabled : Nat
  flags : Nat
deriving DecidableEq, Repr

/-- Translation of `emulator.rs`'s `TimerRegisters` initializer fields. -/
structure TimerRegisters where
  m_cycles_clock : Nat
  base_clock : Nat
  divider_clock : Nat
  divider : Nat
  counter : Nat
  modulo : Nat
  control : Nat
deriving DecidableEq, Repr

/-- Translation of `emulator.rs::Emulator` restricted to the subsystems the
embedded sources touch; the remaining collaborators (gpu, keys, dma, banked
memory map) are out of scope (spec section 1). -/
structure Emulator where
  cpu : CpuState
  interrupts : InterruptRegisters
  timers : TimerRegisters
  apu : ApuState

def CH1_ENABLED_INDEX : Nat := 0
def CH2_ENABLED_INDEX : Nat := 1
def CH3_ENABLED_INDEX : Nat := 2
def CH4_ENABLED_INDEX : Nat := 3
def CH3_DAC_ENABLED_INDEX : Nat := 7
def APU_ENABLED_INDEX : Nat := 7

/-- Translation of `apu.rs::apu_enabled`. -/
def apu_enabled (audio_master_control : Nat) : Bool :=
  is_bit_set audio_master_control APU_ENABLED_INDEX

/-- Translation of `apu.rs::set_ch3_period_high`: store the written value in
the wave channel's period-high register, and when its trigger bit (bit 7) is
set, trigger the channel and set the channel-3 status bit of the audio
master control register. -/
def set_ch3_period_high (emulator : Emulator) (new_period_high_value : Nat) : Emulator :=
  let em1 := { emulator with apu := { emulator.apu with channel3 :=
    { emulator.apu.channel3 with period :=
      { emulator.apu.channel3.period with high := new_period_high_value } } } }
  if Wave.should_trigger em1.apu.channel3 then
    { em1 with apu := { em1.apu with
      channel3 := Wave.trigger em1.apu.channel3,
      audio_master_control := set_bit em1.apu.audio_master_control CH3_ENABLED_INDEX } }
  else em1

/-- Translation of `apu.rs::set_ch3_dac_enabled`: bit 7 of the written value
drives the wave channel's DAC; clearing it disables the channel and clears
its status bit. -/
def set_ch3_dac_enabled (emulator : Emulator) (new_dac_enabled_register_value : Nat) : Emulator :=
  let should_disable := !(is_bit_set new_dac_enabled_register_value CH3_DAC_ENABLED_INDEX)
  let em1 := { emulator with apu := { emulator.apu with channel3 :=
    { emulator.apu.channel3 with dac_enabled := !should_disable } } }
  if should_disable then
    { em1 with apu := { em1.apu with
      channel3 := Wave.disable em1.apu.channel3,
      audio_master_control := reset_bit em1.apu.audio_master_control CH3_ENABLED_INDEX } }
  else em1

/-- Translation of `apu.rs::set_audio_master_control`: store the written
value masked to its high nibble; when the stored value's bit 7 (APU power)
is clear, reset the whole APU state to its power-on initial state. -/
def set_audio_master_control (emulator : Emulator) (new_audio_master_control : Nat) : Emulator :=
  let em1 := { emulator with apu := { emulator.apu with
    audio_master_control := new_audio_master_control &&& 0b11110000 } }
  let is_powered_off := !(is_bit_set em1.apu.audio_master_control APU_ENABLED_INDEX)
  if is_powered_off then { em1 with apu := initialize_apu } else em1

namespace Interrupts

/-- Translation of `cpu/interrupts.rs::InterruptType`. -/
inductive InterruptType
  | VBlank | LCDStatus | TimerOverflow | SerialLink | JoypadPress
deriving DecidableEq, Repr

/-- Translation of `interrupts.rs::get_fired_interrupt_bits`. -/
def get_fired_interrupt_bits (emulator : Emulator) : Nat :=
  emulator.interrupts.enabled &&& emulator.interrupts.flags &&& 0x1F

/-- Translation of `interrupts.rs::get_fired_interrupt`: priority selection
by the lowest-numbered set bit of the fired mask. -/
def get_fired_interrupt (emulator : Emulator) : Option InterruptType :=
  let fired_interrupt_bits := get_fired_interrupt_bits emulator
  if fired_interrupt_bits &&& 0x01 ≠ 0 then some InterruptType.VBlank
  else if fired_interrupt_bits &&& 0x02 ≠ 0 then some InterruptType.LCDStatus
  else if fired_interrupt_bits &&& 0x04 ≠ 0 then some InterruptType.TimerOverflow
  else if fired_interrupt_bits &&& 0x08 ≠ 0 then some InterruptType.SerialLink
  else if fired_interrupt_bits &&& 0x10 ≠ 0 then some InterruptType.JoypadPress
  else none

/-- Translation of `interrupts.rs::get_interrupt_isr`: the fixed service
addresses. -/
def get_interrupt_isr : InterruptType → Nat
  | InterruptType.VBlank => 0x40
  | InterruptType.LCDStatus => 0x48
  | InterruptType.TimerOverflow => 0x50
  | InterruptType.SerialLink => 0x58
  | InterruptType.JoypadPress => 0x60

/-- Translation of `interrupts.rs::turn_off_interrupt_flag`: clear the fired
source's pending bit (`flags & !bit`, a `u8` complement mask). -/
def turn_off_interrupt_flag (emulator : Emulator) (interrupt_type : InterruptType) : Emulator :=
  match interrupt_type with
  | InterruptType.VBlank =>
    { emulator with interrupts := { emulator.interrupts with flags := emulator.interrupts.flags &&& 0xFE } }
  | InterruptType.LCDStatus =>
    { emulator with interrupts := { emulator.interrupts with flags := emulator.interrupts.flags &&& 0xFD } }
  | InterruptType.TimerOverflow =>
    { emulator with interrupts := { emulator.interrupts with flags := emulator.interrupts.flags &&& 0xFB } }
  | InterruptType.SerialLink =>
    { emulator with interrupts := { emulator.interrupts with flags := emulator.interrupts.flags &&& 0xF7 } }
  | InterruptType.JoypadPress =>
    { emulator with interrupts := { emulator.interrupts with flags := emulator.interrupts.flags &&& 0xEF } }

/-- Translation of `interrupts.rs::interrupts_fired`. -/
def interrupts_fired (emulator : Emulator) : Bool :=
  get_fired_interrupt_bits emulator != 0

/-- Modelled from the spec: `jumps::restart` (`cpu/jumps.rs` is not in the
excerpt).  Spec section 4.3: an unconditional call-style transfer — push the
current program counter onto the stack with the same descending-address
convention as the stack push of section 4.2, then set the program counter to
the service address. -/
def restart (emulator : Emulator) (address : Nat) : Emulator :=
  let cpu := emulator.cpu
  let pc := cpu.registers.program_counter
  let sp1 := (cpu.registers.stack_pointer + 65535) % 65536
  let c1 := { cpu with registers := { cpu.registers with stack_pointer := sp1 } }
  let c2 := store_byte_in_memory c1 sp1 (pc >>> 8)
  let sp2 := (c2.registers.stack_pointer + 65535) % 65536
  let c3 := { c2 with registers := { c2.registers with stack_pointer := sp2 } }
  let c4 := store_byte_in_memory c3 sp2 (pc &&& 0xFF)
  let c5 := run_extra_machine_cycle c4
  { emulator with cpu := { c5 with registers := { c5.registers with program_counter := address } } }

/-- Translation of `interrupts.rs::step`: zero the instruction clock; when
the global gate is set and some enabled source is pending, clear the gate,
clear that source's pending flag, and transfer control to its service
address. -/
def step (emulator : Emulator) : Emulator :=
  let em0 := { emulator with cpu := { emulator.cpu with clock := ⟨0⟩ } }
  if em0.cpu.interrupts.enabled && interrupts_fired em0 then
    match get_fired_interrupt em0 with
    | some interrupt_type =>
      let em1 := { em0 with cpu := { em0.cpu with interrupts := { enabled := false } } }
      let em2 := turn_off_interrupt_flag em1 interrupt_type
      restart em2 (get_interrupt_isr interrupt_type)
    | none => em0
  else em0

end Interrupts

/-- Modelled from the spec: the per-tick driver (spec sections 2 and 4.3) —
the interrupt controller runs first; if it dispatches a service routine no
opcode is fetched that tick, otherwise the opcode dispatch engine runs
once. -/
def tick (emulator : Emulator) : Emulator :=
  let em1 := Interrupts.step emulator
  if emulator.cpu.interrupts.enabled && Interrupts.interrupts_fired emulator then em1
  else { em1 with cpu := execute_opcode em1.cpu }

/-- Claim C8: executing opcode 0x00 (no-op) advances the program counter by
exactly one (mod 65536) and leaves every register, every flag bit, the stack
pointer, and all memory unchanged, charging only the single fetch machine
cycle. -/
theorem C8_nop_advances_pc_only (cpu : CpuState)
    (h : cpu.memory cpu.registers.program_counter % 256 = 0x00) :
    execute_opcode cpu =
      { cpu with
        registers := { cpu.registers with
          program_counter := (cpu.registers.program_counter + 1) % 65536 },
        clock := ⟨cpu.clock.instruction_clock_cycles + 1⟩ } := by
  simp [execute_opcode, read_next_instruction_byte, read_byte_from_memory, add_cycles, h,
    dispatch_opcode]

/-- Sample machine state used to instantiate claim C8. -/
def cpuC8 : CpuState :=
  { registers := ⟨1, 2, 3, 4, 5, 0xB0, 6, 7, 0x100, 0xFFFE⟩
    clock := ⟨0⟩
    interrupts := ⟨false⟩
    memory := fun _ => 0 }

/-- Witness for claim C8 at a concrete state whose next opcode byte is
0x00. -/
theorem C8_nop_advances_pc_only_witness :
    cpuC8.memory cpuC8.registers.program_counter % 256 = 0x00 ∧
    execute_opcode cpuC8 =
      { cpuC8 with
        registers := { cpuC8.registers with
          program_counter := (cpuC8.registers.program_counter + 1) % 65536 },
        clock := ⟨cpuC8.clock.instruction_clock_cycles + 1⟩ } :=
  ⟨rfl, C8_nop_advances_pc_only cpuC8 rfl⟩

/-- Claim C2: with the global interrupt-enable gate unset, the interrupt
step only zeroes the per-instruction clock — the enabled mask, the flags
mask, the program counter, the stack pointer, and memory are untouched —
and the tick proceeds with ordinary opcode dispatch. -/
theorem C2_gate_unset_no_transfer (em : Emulator)
    (hg : em.cpu.interrupts.enabled = false) :
    Interrupts.step em = { em with cpu := { em.cpu with clock := ⟨0⟩ } } ∧
    tick em = { em with cpu := execute_opcode { em.cpu with clock := ⟨0⟩ } } := by
  constructor
  · simp [Interrupts.step, hg]
  · simp [tick, Interrupts.step, hg]

/-- Sample machine state used to instantiate claim C2. -/
def emC2 : Emulator :=
  { cpu :=
      { registers := ⟨0, 0, 0, 0, 0, 0, 0, 0, 0x200, 0xFFFE⟩
        clock := ⟨7⟩
        interrupts := ⟨false⟩
        memory := fun _ => 0 }
    interrupts := { enabled := 0x1F, flags := 0x1F }
    timers := ⟨0, 0, 0, 0, 0, 0, 0⟩
    apu := initialize_apu }

/-- Witness for claim C2 at a concrete state with the gate unset and every
source enabled and pending. -/
theorem C2_gate_unset_no_transfer_witness :
    Interrupts.step emC2 = { emC2 with cpu := { emC2.cpu with clock := ⟨0⟩ } } ∧
    tick emC2 = { emC2 with cpu := execute_opcode { emC2.cpu with clock := ⟨0⟩ } } :=
  C2_gate_unset_no_transfer emC2 rfl

/-- Claim C3: program counter and stack pointer arithmetic wraps modulo
65536 — an instruction-byte fetch with the program counter at 0xFFFF leaves
it at 0x0000, and a stack push with the stack pointer at 0x0000 decrements
it through 0xFFFF (high-byte write) and 0xFFFE (low-byte write), ending at
0xFFFE. -/
theorem C3_counter_wraparound (cpu1 cpu2 : CpuState) (pair : RegisterPair)
    (h1 : cpu1.registers.program_counter = 0xFFFF)
    (h2 : cpu2.registers.stack_pointer = 0x0000) :
    (read_next_instruction_byte cpu1).2.registers.program_counter = 0x0000 ∧
    (push_register_pair_to_stack cpu2 pair).registers.stack_pointer = 0xFFFE ∧
    (push_register_pair_to_stack cpu2 pair).memory =
      write_mem (write_mem cpu2.memory 0xFFFF (read_from_register_pair cpu2 pair >>> 8))
        0xFFFE (read_from_register_pair cpu2 pair &&& 0xFF) := by
  refine ⟨?_, ?_, ?_⟩
  · simp [read_next_instruction_byte, read_byte_from_memory, add_cycles, h1]
  · simp only [push_register_pair_to_stack, store_byte_in_memory, run_extra_machine_cycle,
      add_cycles]
    simp [h2]
  · simp only [push_register_pair_to_stack, store_byte_in_memory, run_extra_machine_cycle,
      add_cycles]
    simp [h2]

/-- Sample machine state used to instantiate claim C3: program counter at
0xFFFF and stack pointer at 0x0000. -/
def cpuC3 : CpuState :=
  { registers := ⟨0x12, 0x34, 0x56, 0, 0, 0, 0, 0, 0xFFFF, 0x0000⟩
    clock := ⟨0⟩
    interrupts := ⟨false⟩
    memory := fun _ => 0 }

/-- Witness for claim C3 at a concrete state. -/
theorem C3_counter_wraparound_witness :
    (read_next_instruction_byte cpuC3).2.registers.program_counter = 0x0000 ∧
    (push_register_pair_to_stack cpuC3 REGISTER_BC).registers.stack_pointer = 0xFFFE ∧
    (push_register_pair_to_stack cpuC3 REGISTER_BC).memory =
      write_mem (write_mem cpuC3.memory 0xFFFF (read_from_register_pair cpuC3 REGISTER_BC >>> 8))
        0xFFFE (read_from_register_pair cpuC3 REGISTER_BC &&& 0xFF) :=
  C3_counter_wraparound cpuC3 cpuC3 REGISTER_BC rfl rfl

/-- Claim C10: a write to the audio master control register stores only the
high nibble of the written value (the channel-status bits 0–3 can never be
set by a direct write), and whenever the written value has bit 7 clear the
entire APU state is reset to its power-on initial state. -/
theorem C10_audio_master_control_write (em : Emulator) (v : Nat) :
    (set_audio_master_control em v).apu =
      (if is_bit_set v 7 then { em.apu with audio_master_control := v &&& 0xF0 }
        else initialize_apu) ∧
    (set_audio_master_control em v).apu.audio_master_control &&& 0x0F = 0 := by
  have h240 : Nat.testBit 240 7 = true := by decide
  have hbit : is_bit_set (v &&& 0xF0) 7 = is_bit_set v 7 := by
    simp [is_bit_set, Nat.testBit_and, h240]
  by_cases hb : is_bit_set v 7
  · have hzero : (0xF0 &&& 0x0F : Nat) = 0 := by decide
    have hmask : v &&& 0xF0 &&& 0x0F = 0 := by
      rw [Nat.and_assoc, hzero, Nat.and_zero]
    simp [set_audio_master_control, APU_ENABLED_INDEX, hbit, hb, hmask]
  · simp [set_audio_master_control, APU_ENABLED_INDEX, hbit, hb, initialize_apu]

/-- Power-on machine state used for claim C9. -/
def emC9 : Emulator :=
  { cpu :=
      { registers := ⟨0, 0, 0, 0, 0, 0, 0, 0, 0, 0⟩
        clock := ⟨0⟩
        interrupts := ⟨false⟩
        memory := fun _ => 0 }
    interrupts := { enabled := 0, flags := 0 }
    timers := ⟨0, 0, 0, 0, 0, 0, 0⟩
    apu := initialize_apu }

/-- Machine state after the public register write enabling the wave
channel's DAC (bit 7 set). -/
def emC9_dac : Emulator := set_ch3_dac_enabled emC9 0x80

/-- Machine state after the public register write to the wave channel's
period-high register with the trigger bit set: the channel becomes enabled
while its period divider is still the power-on zero. -/
def emC9_trig : Emulator := set_ch3_period_high emC9_dac 0x80

/-- Claim C9 is violated by the code: from power-on, two public APU register
writes (`set_ch3_dac_enabled 0x80`, then `set_ch3_period_high 0x80`) reach a
state whose wave channel is enabled with its period divider equal to zero,
so the next wave-channel step attempts the unguarded `u16` decrement of a
zero divider — an underflow fault (`none`). -/
theorem C9_wave_divider_underflow :
    emC9_trig.apu.channel3.enabled = true ∧
    emC9_trig.apu.channel3.period.divider = 0 ∧
    Wave.step emC9_trig.apu.channel3 4 = none :=
  ⟨rfl, rfl, rfl⟩

/-- Claim C6: executing the memory-indirect load-and-increment opcode 0x2A
reads the byte at the HL pair's pre-increment address, stores that byte into
register A, and leaves HL holding the pre-increment address plus one, modulo
65536. -/
theorem C6_load_a_hl_increment (cpu : CpuState)
    (h : cpu.memory cpu.registers.program_counter % 256 = 0x2A) :
    (execute_opcode cpu).registers.a =
      cpu.memory (read_from_register_pair cpu REGISTER_HL) % 256 ∧
    read_from_register_pair (execute_opcode cpu) REGISTER_HL =
      (read_from_register_pair cpu REGISTER_HL + 1) % 65536 := by
  simp only [execute_opcode, read_next_instruction_byte, read_byte_from_memory, add_cycles]
  rw [h]
  simp only [dispatch_opcode, reduceIte]
  simp only [load_memory_byte_in_destination_register, read_byte_from_memory, add_cycles,
    store_in_register_pair, store_in_register, read_from_register_pair, read_from_register,
    REGISTER_HL]
  simp
  omega

/-- Sample machine state used to instantiate claim C6: the next opcode byte
is 0x2A and HL points at 0x1234. -/
def cpuC6 : CpuState :=
  { registers := ⟨0, 0, 0, 0, 0, 0, 0x12, 0x34, 0x100, 0xFFFE⟩
    clock := ⟨0⟩
    interrupts := ⟨false⟩
    memory := fun a => if a = 0x100 then 0x2A else if a = 0x1234 then 0x77 else 0 }

/-- Witness for claim C6 at a concrete state. -/
theorem C6_load_a_hl_increment_witness :
    (execute_opcode cpuC6).registers.a =
      cpuC6.memory (read_from_register_pair cpuC6 REGISTER_HL) % 256 ∧
    read_from_register_pair (execute_opcode cpuC6) REGISTER_HL =
      (read_from_register_pair cpuC6 REGISTER_HL + 1) % 65536 :=
  C6_load_a_hl_increment cpuC6 rfl

/-- Claim C7: an opcode byte that selects no defined instruction in the base
dispatch table is total — its only effect is the fetch itself: the program
counter advances by exactly one (mod 65536) and the fetch machine cycle is
charged, while all registers, flags, the stack pointer, and memory are left
unchanged. -/
theorem C7_unmapped_opcode_noop (cpu : CpuState)
    (h : (read_next_instruction_byte cpu).1 ∉ mapped_opcodes) :
    execute_opcode cpu =
      { cpu with
        registers := { cpu.registers with
          program_counter := (cpu.registers.program_counter + 1) % 65536 },
        clock := ⟨cpu.clock.instruction_clock_cycles + 1⟩ } := by
  simp only [execute_opcode]
  rw [dispatch_opcode_unmapped _ _ h]
  simp [read_next_instruction_byte, read_byte_from_memory, add_cycles]

/-- Sample machine state used to instantiate claim C7: every memory byte is
0xD3, an opcode with no defined instruction in the base table. -/
def cpuC7 : CpuState :=
  { registers := ⟨9, 8, 7, 6, 5, 0xF0, 3, 2, 0x150, 0xC000⟩
    clock := ⟨0⟩
    interrupts := ⟨true⟩
    memory := fun _ => 0xD3 }

/-- Witness for claim C7 at a concrete state fetching the unmapped opcode
0xD3. -/
theorem C7_unmapped_opcode_noop_witness :
    (read_next_instruction_byte cpuC7).1 ∉ mapped_opcodes ∧
    execute_opcode cpuC7 =
      { cpuC7 with
        registers := { cpuC7.registers with
          program_counter := (cpuC7.registers.program_counter + 1) % 65536 },
        clock := ⟨cpuC7.clock.instruction_clock_cycles + 1⟩ } :=
  ⟨by decide, C7_unmapped_opcode_noop cpuC7 (by decide)⟩

/-- Bit 7 (Zero) of the flag byte produced by the 0xF8 flag-update chain is
always clear. -/
theorem sp_add_flag_bit7 (f : Nat) (p q : Prop) [Decidable p] [Decidable q] :
    (if p then (if q then f &&& 127 &&& 191 ||| 32 else f &&& 127 &&& 191 &&& 223) ||| 16
      else (if q then f &&& 127 &&& 191 ||| 32 else f &&& 127 &&& 191 &&& 223) &&& 239).testBit 7 = false := by
  by_cases hp : p <;> by_cases hq : q <;>
    simp [hp, hq, Nat.testBit_or, Nat.testBit_and,
      (by decide : Nat.testBit 127 7 = false), (by decide : Nat.testBit 191 7 = true),
      (by decide : Nat.testBit 223 7 = true), (by decide : Nat.testBit 239 7 = true),
      (by decide : Nat.testBit 32 7 = false), (by decide : Nat.testBit 16 7 = false)]

/-- Bit 6 (Subtract) of the flag byte produced by the 0xF8 flag-update chain
is always clear. -/
theorem sp_add_flag_bit6 (f : Nat) (p q : Prop) [Decidable p] [Decidable q] :
    (if p then (if q then f &&& 127 &&& 191 ||| 32 else f &&& 127 &&& 191 &&& 223) ||| 16
      else (if q then f &&& 127 &&& 191 ||| 32 else f &&& 127 &&& 191 &&& 223) &&& 239).testBit 6 = false := by
  by_cases hp : p <;> by_cases hq : q <;>
    simp [hp, hq, Nat.testBit_or, Nat.testBit_and,
      (by decide : Nat.testBit 127 6 = true), (by decide : Nat.testBit 191 6 = false),
      (by decide : Nat.testBit 223 6 = true), (by decide : Nat.testBit 239 6 = true),
      (by decide : Nat.testBit 32 6 = false), (by decide : Nat.testBit 16 6 = false)]

/-- Bit 5 (Half-carry) of the flag byte produced by the 0xF8 flag-update
chain holds exactly when the half-carry condition held. -/
theorem sp_add_flag_bit5 (f : Nat) (p q : Prop) [Decidable p] [Decidable q] :
    ((if p then (if q then f &&& 127 &&& 191 ||| 32 else f &&& 127 &&& 191 &&& 223) ||| 16
      else (if q then f &&& 127 &&& 191 ||| 32 else f &&& 127 &&& 191 &&& 223) &&& 239).testBit 5 = true) ↔ q := by
  by_cases hp : p <;> by_cases hq : q <;>
    simp [hp, hq, Nat.testBit_or, Nat.testBit_and,
      (by decide : Nat.testBit 127 5 = true), (by decide : Nat.testBit 191 5 = true),
      (by decide : Nat.testBit 223 5 = false), (by decide : Nat.testBit 239 5 = true),
      (by decide : Nat.testBit 32 5 = true), (by decide : Nat.testBit 16 5 = false)]

/-- Bit 4 (Carry) of the flag byte produced by the 0xF8 flag-update chain
holds exactly when the carry condition held. -/
theorem sp_add_flag_bit4 (f : Nat) (p q : Prop) [Decidable p] [Decidable q] :
    ((if p then (if q then f &&& 127 &&& 191 ||| 32 else f &&& 127 &&& 191 &&& 223) ||| 16
      else (if q then f &&& 127 &&& 191 ||| 32 else f &&& 127 &&& 191 &&& 223) &&& 239).testBit 4 = true) ↔ p := by
  by_cases hp : p <;> by_cases hq : q <;>
    simp [hp, hq, Nat.testBit_or, Nat.testBit_and,
      (by decide : Nat.testBit 127 4 = true), (by decide : Nat.testBit 191 4 = true),
      (by decide : Nat.testBit 223 4 = true), (by decide : Nat.testBit 239 4 = false),
      (by decide : Nat.testBit 32 4 = false), (by decide : Nat.testBit 16 4 = true)]

/-- Reduction of the dispatch chain at opcode 0xF8 to its arm body. -/
theorem dispatch_opcode_f8_eq (cpu : CpuState) :
    dispatch_opcode 0xF8 cpu =
      (let p := read_next_instruction_byte cpu
       let sb := if p.1 < 128 then p.1 else 65280 + p.1
       let sum := (p.2.registers.stack_pointer + sb) % 65536
       let c1 := store_in_register_pair p.2 REGISTER_HL sum
       let c2 := set_flag_z c1 false
       let c3 := set_flag_n c2 false
       let c4 := set_flag_h c3 (decide (sum &&& 0xF < c3.registers.stack_pointer &&& 0xF))
       let c5 := set_flag_c c4 (decide (sum &&& 0xFF < c4.registers.stack_pointer &&& 0xFF))
       run_extra_machine_cycle c5) := rfl

/-- Claim C5: opcode 0xF8 fetches one signed byte, stores the stack pointer
plus the sign-extended byte (with 16-bit wraparound) into HL, leaves the
stack pointer unchanged, clears Zero and Subtract, sets Half-carry iff
(result & 0xF) < (stack pointer & 0xF), and sets Carry iff (result & 0xFF) <
(stack pointer & 0xFF). -/
theorem C5_sp_signed_add (cpu : CpuState)
    (h : cpu.memory cpu.registers.program_counter % 256 = 0xF8) :
    (execute_opcode cpu).registers.program_counter =
      (cpu.registers.program_counter + 2) % 65536 ∧
    (execute_opcode cpu).registers.stack_pointer = cpu.registers.stack_pointer ∧
    read_from_register_pair (execute_opcode cpu) REGISTER_HL =
      (((cpu.registers.stack_pointer : Int) +
          (if cpu.memory ((cpu.registers.program_counter + 1) % 65536) % 256 < 128 then
            (cpu.memory ((cpu.registers.program_counter + 1) % 65536) % 256 : Int)
          else (cpu.memory ((cpu.registers.program_counter + 1) % 65536) % 256 : Int) - 256)) %
        65536).toNat ∧
    get_flag_z (execute_opcode cpu) = false ∧
    get_flag_n (execute_opcode cpu) = false ∧
    ((get_flag_h (execute_opcode cpu) = true) ↔
      read_from_register_pair (execute_opcode cpu) REGISTER_HL &&& 0xF <
        cpu.registers.stack_pointer &&& 0xF) ∧
    ((get_flag_c (execute_opcode cpu) = true) ↔
      read_from_register_pair (execute_opcode cpu) REGISTER_HL &&& 0xFF <
        cpu.registers.stack_pointer &&& 0xFF) := by
  have hre : ∀ x : Nat, x % 65536 / 256 % 256 * 256 + x % 65536 % 256 = x % 65536 :=
    fun x => by omega
  refine ⟨?_, ?_, ?_, ?_, ?_, ?_, ?_⟩
  · -- program counter advances by two
    simp only [execute_opcode, read_next_instruction_byte, read_byte_from_memory, add_cycles]
    rw [h, dispatch_opcode_f8_eq]
    simp only [read_next_instruction_byte, read_byte_from_memory, store_in_register_pair,
      store_in_register, read_from_register_pair, read_from_register, REGISTER_HL,
      set_flag_z, set_flag_n, set_flag_h, set_flag_c, run_extra_machine_cycle, add_cycles,
      get_flag_z, get_flag_n, get_flag_h, get_flag_c]
    omega
  · -- stack pointer unchanged
    simp only [execute_opcode, read_next_instruction_byte, read_byte_from_memory, add_cycles]
    rw [h, dispatch_opcode_f8_eq]
    simp only [read_next_instruction_byte, read_byte_from_memory, store_in_register_pair,
      store_in_register, read_from_register_pair, read_from_register, REGISTER_HL,
      set_flag_z, set_flag_n, set_flag_h, set_flag_c, run_extra_machine_cycle, add_cycles,
      get_flag_z, get_flag_n, get_flag_h, get_flag_c]
  · -- HL holds the 16-bit wrapped signed sum
    simp only [execute_opcode, read_next_instruction_byte, read_byte_from_memory, add_cycles]
    rw [h, dispatch_opcode_f8_eq]
    simp only [read_next_instruction_byte, read_byte_from_memory, store_in_register_pair,
      store_in_register, read_from_register_pair, read_from_register, REGISTER_HL,
      set_flag_z, set_flag_n, set_flag_h, set_flag_c, run_extra_machine_cycle, add_cycles,
      get_flag_z, get_flag_n, get_flag_h, get_flag_c]
    simp only [hre]
    split <;> omega
  · -- Zero flag cleared
    simp only [execute_opcode, read_next_instruction_byte, read_byte_from_memory, add_cycles]
    rw [h, dispatch_opcode_f8_eq]
    simp only [read_next_instruction_byte, read_byte_from_memory, store_in_register_pair,
      store_in_register, read_from_register_pair, read_from_register, REGISTER_HL,
      set_flag_z, set_flag_n, set_flag_h, set_flag_c, run_extra_machine_cycle, add_cycles,
      get_flag_z, get_flag_n, get_flag_h, get_flag_c]
    exact sp_add_flag_bit7 _ _ _
  · -- Subtract flag cleared
    simp only [execute_opcode, read_next_instruction_byte, read_byte_from_memory, add_cycles]
    rw [h, dispatch_opcode_f8_eq]
    simp only [read_next_instruction_byte, read_byte_from_memory, store_in_register_pair,
      store_in_register, read_from_register_pair, read_from_register, REGISTER_HL,
      set_flag_z, set_flag_n, set_flag_h, set_flag_c, run_extra_machine_cycle, add_cycles,
      get_flag_z, get_flag_n, get_flag_h, get_flag_c]
    exact sp_add_flag_bit6 _ _ _
  · -- Half-carry iff the low-nibble borrow comparison of the claim
    simp only [execute_opcode, read_next_instruction_byte, read_byte_from_memory, add_cycles]
    rw [h, dispatch_opcode_f8_eq]
    simp only [read_next_instruction_byte, read_byte_from_memory, store_in_register_pair,
      store_in_register, read_from_register_pair, read_from_register, REGISTER_HL,
      set_flag_z, set_flag_n, set_flag_h, set_flag_c, run_extra_machine_cycle, add_cycles,
      get_flag_z, get_flag_n, get_flag_h, get_flag_c]
    refine Iff.trans (sp_add_flag_bit5 _ _ _) ?_
    simp only [hre]
    simp
  · -- Carry iff the low-byte borrow comparison of the claim
    simp only [execute_opcode, read_next_instruction_byte, read_byte_from_memory, add_cycles]
    rw [h, dispatch_opcode_f8_eq]
    simp only [read_next_instruction_byte, read_byte_from_memory, store_in_register_pair,
      store_in_register, read_from_register_pair, read_from_register, REGISTER_HL,
      set_flag_z, set_flag_n, set_flag_h, set_flag_c, run_extra_machine_cycle, add_cycles,
      get_flag_z, get_flag_n, get_flag_h, get_flag_c]
    refine Iff.trans (sp_add_flag_bit4 _ _ _) ?_
    simp only [hre]
    simp

/-- Sample machine state used to instantiate claim C5: stack pointer 0x0005,
next opcode 0xF8 with immediate byte 0xFF. -/
def cpuC5 : CpuState :=
  { registers := ⟨0, 0, 0, 0, 0, 0, 0, 0, 0, 5⟩
    clock := ⟨0⟩
    interrupts := ⟨false⟩
    memory := fun a => if a = 0 then 0xF8 else if a = 1 then 0xFF else 0 }

/-- Witness for claim C5, including the claim's particular case: stack
pointer 0x0005 and immediate 0xFF yield HL = 0x0004 with Half-carry and
Carry both set. -/
theorem C5_sp_signed_add_witness :
    cpuC5.memory cpuC5.registers.program_counter % 256 = 0xF8 ∧
    read_from_register_pair (execute_opcode cpuC5) REGISTER_HL = 0x0004 ∧
    get_flag_h (execute_opcode cpuC5) = true ∧
    get_flag_c (execute_opcode cpuC5) = true := by
  have hc := C5_sp_signed_add cpuC5 rfl
  refine ⟨rfl, ?_, ?_, ?_⟩
  · rw [hc.2.2.1]
    decide
  · exact hc.2.2.2.2.2.1.mpr (by decide)
  · exact hc.2.2.2.2.2.2.mpr (by decide)

/-- Claim C4: for every CPU state and register pair, pushing the pair to the
stack and then popping back into the same pair returns the pair's original
16-bit value unchanged and leaves the stack pointer at its original
value. -/
theorem C4_push_pop_roundtrip (cpu : CpuState) (pair : RegisterPair)
    (hwf : RegistersWf cpu.registers)
    (hp : pair = REGISTER_AF ∨ pair = REGISTER_BC ∨ pair = REGISTER_DE ∨ pair = REGISTER_HL) :
    read_from_register_pair
      (pop_word_into_register_pair_from_stack (push_register_pair_to_stack cpu pair) pair)
      pair = read_from_register_pair cpu pair ∧
    (pop_word_into_register_pair_from_stack (push_register_pair_to_stack cpu pair)
      pair).registers.stack_pointer = cpu.registers.stack_pointer := by
  obtain ⟨⟨ra, rb, rc, rd, re, rf, rh, rl, pc, sp⟩, ⟨cyc⟩, gate, mem⟩ := cpu
  obtain ⟨ha, hb, hc, hd, he, hf, hh, hl, hpc, hsp⟩ := hwf
  simp at ha hb hc hd he hf hh hl hpc hsp
  have s8 : ∀ x : Nat, x >>> 8 = x / 256 := fun x => Nat.shiftRight_eq_div_pow x 8
  have l8 : ∀ x : Nat, x <<< 8 = x * 256 := fun x => Nat.shiftLeft_eq x 8
  have m255 : ∀ x : Nat, x &&& 255 = x % 256 := fun x => Nat.and_pow_two_sub_one_eq_mod x 8
  have hsp2 : ((sp + 65535) % 65536 + 65535) % 65536 = (sp + 65534) % 65536 := by omega
  have hsp3 : ((sp + 65534) % 65536 + 1) % 65536 = (sp + 65535) % 65536 := by omega
  have hsp4 : ((sp + 65535) % 65536 + 1) % 65536 = sp := by omega
  have hne1 : ¬((sp + 65535) % 65536 = (sp + 65534) % 65536) := by omega
  rcases hp with hp | hp | hp | hp <;> subst hp
  · -- REGISTER_AF
    have hX : rf &&& 240 ≤ 240 := @Nat.and_le_right rf 240
    have h240 : (240 &&& 240 : Nat) = 240 := by decide
    have hXX : rf &&& 240 &&& 240 = rf &&& 240 := by rw [Nat.and_assoc, h240]
    have hXm : (rf &&& 240) % 256 = rf &&& 240 := by omega
    have hra : ra % 256 = ra := Nat.mod_eq_of_lt ha
    have hword : (ra * 256 + (rf &&& 240)) / 256 = ra := by omega
    have hlow : (ra * 256 + (rf &&& 240)) % 256 = rf &&& 240 := by omega
    have hpush : push_register_pair_to_stack
        ⟨⟨ra, rb, rc, rd, re, rf, rh, rl, pc, sp⟩, ⟨cyc⟩, gate, mem⟩ REGISTER_AF =
        ⟨⟨ra, rb, rc, rd, re, rf, rh, rl, pc, (sp + 65534) % 65536⟩, ⟨cyc + 3⟩, gate,
          write_mem (write_mem mem ((sp + 65535) % 65536) ((ra * 256 + (rf &&& 240)) / 256))
            ((sp + 65534) % 65536) ((ra * 256 + (rf &&& 240)) % 256)⟩ := by
      simp only [push_register_pair_to_stack, store_byte_in_memory, run_extra_machine_cycle,
        add_cycles, read_from_register_pair, read_from_register, REGISTER_AF, s8, l8, m255, hsp2]
    rw [hpush]
    have hpop : pop_word_into_register_pair_from_stack
        ⟨⟨ra, rb, rc, rd, re, rf, rh, rl, pc, (sp + 65534) % 65536⟩, ⟨cyc + 3⟩, gate,
          write_mem (write_mem mem ((sp + 65535) % 65536) ((ra * 256 + (rf &&& 240)) / 256))
            ((sp + 65534) % 65536) ((ra * 256 + (rf &&& 240)) % 256)⟩ REGISTER_AF =
        ⟨⟨ra, rb, rc, rd, re, rf &&& 240, rh, rl, pc, sp⟩, ⟨cyc + 5⟩, gate,
          write_mem (write_mem mem ((sp + 65535) % 65536) ((ra * 256 + (rf &&& 240)) / 256))
            ((sp + 65534) % 65536) ((ra * 256 + (rf &&& 240)) % 256)⟩ := by
      simp only [pop_word_into_register_pair_from_stack, read_byte_from_memory, add_cycles,
        store_in_register_pair, store_in_register, l8, write_mem, hsp3, hsp4, hne1, hword,
        hlow, hra, hXm, hXX, reduceIte, REGISTER_AF]
    rw [hpop]
    simp [read_from_register_pair, read_from_register, REGISTER_AF, hXX]
  · -- REGISTER_BC
    have hrbm : rb % 256 = rb := Nat.mod_eq_of_lt hb
    have hrcm : rc % 256 = rc := Nat.mod_eq_of_lt hc
    have hword : (rb * 256 + rc) / 256 = rb := by omega
    have hlow : (rb * 256 + rc) % 256 = rc := by omega
    have hpush : push_register_pair_to_stack
        ⟨⟨ra, rb, rc, rd, re, rf, rh, rl, pc, sp⟩, ⟨cyc⟩, gate, mem⟩ REGISTER_BC =
        ⟨⟨ra, rb, rc, rd, re, rf, rh, rl, pc, (sp + 65534) % 65536⟩, ⟨cyc + 3⟩, gate,
          write_mem (write_mem mem ((sp + 65535) % 65536) ((rb * 256 + rc) / 256))
            ((sp + 65534) % 65536) ((rb * 256 + rc) % 256)⟩ := by
      simp only [push_register_pair_to_stack, store_byte_in_memory, run_extra_machine_cycle,
        add_cycles, read_from_register_pair, read_from_register, REGISTER_BC, s8, l8, m255, hsp2]
    rw [hpush]
    have hpop : pop_word_into_register_pair_from_stack
        ⟨⟨ra, rb, rc, rd, re, rf, rh, rl, pc, (sp + 65534) % 65536⟩, ⟨cyc + 3⟩, gate,
          write_mem (write_mem mem ((sp + 65535) % 65536) ((rb * 256 + rc) / 256))
            ((sp + 65534) % 65536) ((rb * 256 + rc) % 256)⟩ REGISTER_BC =
        ⟨⟨ra, rb, rc, rd, re, rf, rh, rl, pc, sp⟩, ⟨cyc + 5⟩, gate,
          write_mem (write_mem mem ((sp + 65535) % 65536) ((rb * 256 + rc) / 256))
            ((sp + 65534) % 65536) ((rb * 256 + rc) % 256)⟩ := by
      simp only [pop_word_into_register_pair_from_stack, read_byte_from_memory, add_cycles,
        store_in_register_pair, store_in_register, l8, write_mem, hsp3, hsp4, hne1, hword,
        hlow, hrbm, hrcm, reduceIte, REGISTER_BC]
    rw [hpop]
    simp [read_from_register_pair, read_from_register, REGISTER_BC]
  · -- REGISTER_DE
    have hrdm : rd % 256 = rd := Nat.mod_eq_of_lt hd
    have hrem : re % 256 = re := Nat.mod_eq_of_lt he
    have hword : (rd * 256 + re) / 256 = rd := by omega
    have hlow : (rd * 256 + re) % 256 = re := by omega
    have hpush : push_register_pair_to_stack
        ⟨⟨ra, rb, rc, rd, re, rf, rh, rl, pc, sp⟩, ⟨cyc⟩, gate, mem⟩ REGISTER_DE =
        ⟨⟨ra, rb, rc, rd, re, rf, rh, rl, pc, (sp + 65534) % 65536⟩, ⟨cyc + 3⟩, gate,
          write_mem (write_mem mem ((sp + 65535) % 65536) ((rd * 256 + re) / 256))
            ((sp + 65534) % 65536) ((rd * 256 + re) % 256)⟩ := by
      simp only [push_register_pair_to_stack, store_byte_in_memory, run_extra_machine_cycle,
        add_cycles, read_from_register_pair, read_from_register, REGISTER_DE, s8, l8, m255, hsp2]
    rw [hpush]
    have hpop : pop_word_into_register_pair_from_stack
        ⟨⟨ra, rb, rc, rd, re, rf, rh, rl, pc, (sp + 65534) % 65536⟩, ⟨cyc + 3⟩, gate,
          write_mem (write_mem mem ((sp + 65535) % 65536) ((rd * 256 + re) / 256))
            ((sp + 65534) % 65536) ((rd * 256 + re) % 256)⟩ REGISTER_DE =
        ⟨⟨ra, rb, rc, rd, re, rf, rh, rl, pc, sp⟩, ⟨cyc + 5⟩, gate,
          write_mem (write_mem mem ((sp + 65535) % 65536) ((rd * 256 + re) / 256))
            ((sp + 65534) % 65536) ((rd * 256 + re) % 256)⟩ := by
      simp only [pop_word_into_register_pair_from_stack, read_byte_from_memory, add_cycles,
        store_in_register_pair, store_in_register, l8, write_mem, hsp3, hsp4, hne1, hword,
        hlow, hrdm, hrem, reduceIte, REGISTER_DE]
    rw [hpop]
    simp [read_from_register_pair, read_from_register, REGISTER_DE]
  · -- REGISTER_HL
    have hrhm : rh % 256 = rh := Nat.mod_eq_of_lt hh
    have hrlm : rl % 256 = rl := Nat.mod_eq_of_lt hl
    have hword : (rh * 256 + rl) / 256 = rh := by omega
    have hlow : (rh * 256 + rl) % 256 = rl := by omega
    have hpush : push_register_pair_to_stack
        ⟨⟨ra, rb, rc, rd, re, rf, rh, rl, pc, sp⟩, ⟨cyc⟩, gate, mem⟩ REGISTER_HL =
        ⟨⟨ra, rb, rc, rd, re, rf, rh, rl, pc, (sp + 65534) % 65536⟩, ⟨cyc + 3⟩, gate,
          write_mem (write_mem mem ((sp + 65535) % 65536) ((rh * 256 + rl) / 256))
            ((sp + 65534) % 65536) ((rh * 256 + rl) % 256)⟩ := by
      simp only [push_register_pair_to_stack, store_byte_in_memory, run_extra_machine_cycle,
        add_cycles, read_from_register_pair, read_from_register, REGISTER_HL, s8, l8, m255, hsp2]
    rw [hpush]
    have hpop : pop_word_into_register_pair_from_stack
        ⟨⟨ra, rb, rc, rd, re, rf, rh, rl, pc, (sp + 65534) % 65536⟩, ⟨cyc + 3⟩, gate,
          write_mem (write_mem mem ((sp + 65535) % 65536) ((rh * 256 + rl) / 256))
            ((sp + 65534) % 65536) ((rh * 256 + rl) % 256)⟩ REGISTER_HL =
        ⟨⟨ra, rb, rc, rd, re, rf, rh, rl, pc, sp⟩, ⟨cyc + 5⟩, gate,
          write_mem (write_mem mem ((sp + 65535) % 65536) ((rh * 256 + rl) / 256))
            ((sp + 65534) % 65536) ((rh * 256 + rl) % 256)⟩ := by
      simp only [pop_word_into_register_pair_from_stack, read_byte_from_memory, add_cycles,
        store_in_register_pair, store_in_register, l8, write_mem, hsp3, hsp4, hne1, hword,
        hlow, hrhm, hrlm, reduceIte, REGISTER_HL]
    rw [hpop]
    simp [read_from_register_pair, read_from_register, REGISTER_HL]

/-- Sample machine state used to instantiate claim C4. -/
def cpuC4 : CpuState :=
  { registers := ⟨0x12, 0x34, 0x56, 0x78, 0x9A, 0xB0, 0xBC, 0xDE, 0x100, 0xC000⟩
    clock := ⟨0⟩
    interrupts := ⟨false⟩
    memory := fun _ => 0 }

/-- Witness for claim C4 at a concrete state, pushing and popping the AF
pair. -/
theorem C4_push_pop_roundtrip_witness :
    RegistersWf cpuC4.registers ∧
    (read_from_register_pair
        (pop_word_into_register_pair_from_stack
          (push_register_pair_to_stack cpuC4 REGISTER_AF) REGISTER_AF)
        REGISTER_AF = read_from_register_pair cpuC4 REGISTER_AF ∧
      (pop_word_into_register_pair_from_stack
        (push_register_pair_to_stack cpuC4 REGISTER_AF)
        REGISTER_AF).registers.stack_pointer = cpuC4.registers.stack_pointer) :=
  ⟨by decide, C4_push_pop_roundtrip cpuC4 REGISTER_AF (by decide) (Or.inl rfl)⟩

/-- Clearing one flag bit with a complement mask leaves the other bits of
the byte unchanged. -/
theorem testBit_and_mask (fl m j : Nat) (hm : m.testBit j = true) :
    (fl &&& m).testBit j = fl.testBit j := by
  simp [Nat.testBit_and, hm]

/-- Clearing one flag bit with a complement mask makes that bit read as
zero. -/
theorem testBit_and_mask_false (fl m j : Nat) (hm : m.testBit j = false) :
    (fl &&& m).testBit j = false := by
  simp [Nat.testBit_and, hm]

/-- Masking with a single power of two picks out one binary digit. -/
theorem and_two_pow_eq (x i : Nat) : x &&& 2 ^ i = x / 2 ^ i % 2 * 2 ^ i := by
  rw [Nat.and_two_pow, Nat.testBit_to_div_mod]
  by_cases h : x / 2 ^ i % 2 = 1
  · simp [h]
  · have h2 : x / 2 ^ i % 2 = 0 := by omega
    simp [h, h2]

/-- Claim C1: when the global interrupt-enable gate is set and some enabled
source is pending, the interrupt step selects exactly one source — the
lowest-numbered set bit of the fired mask, vertical-blank highest — and, in
one tick: clears the gate, clears only that source's pending bit in the
flags mask (all other flags bits and the enabled mask unchanged), pushes the
prior program counter onto the stack, and sets the program counter to that
source's fixed service address (0x40 + 8 * i for source i). -/
theorem C1_interrupt_dispatch (em : Emulator)
    (hg : em.cpu.interrupts.enabled = true)
    (hf : Interrupts.get_fired_interrupt_bits em ≠ 0) :
    ∃ i, i < 5 ∧
      Interrupts.get_fired_interrupt_bits em &&& (1 <<< i) ≠ 0 ∧
      (∀ j, j < i → Interrupts.get_fired_interrupt_bits em &&& (1 <<< j) = 0) ∧
      tick em = Interrupts.step em ∧
      (Interrupts.step em).cpu.interrupts.enabled = false ∧
      (Interrupts.step em).interrupts.enabled = em.interrupts.enabled ∧
      Nat.testBit (Interrupts.step em).interrupts.flags i = false ∧
      (∀ j, j < 8 → j ≠ i → Nat.testBit (Interrupts.step em).interrupts.flags j =
        Nat.testBit em.interrupts.flags j) ∧
      (Interrupts.step em).cpu.registers.program_counter = 0x40 + 8 * i ∧
      (Interrupts.step em).cpu.registers.stack_pointer =
        (em.cpu.registers.stack_pointer + 65534) % 65536 ∧
      (Interrupts.step em).cpu.memory =
        write_mem
          (write_mem em.cpu.memory ((em.cpu.registers.stack_pointer + 65535) % 65536)
            (em.cpu.registers.program_counter >>> 8))
          ((em.cpu.registers.stack_pointer + 65534) % 65536)
          (em.cpu.registers.program_counter &&& 0xFF) := by
  obtain ⟨⟨⟨ra, rb, rc, rd, re, rf, rh, rl, pc, sp⟩, ⟨cyc⟩, ⟨gb⟩, mem⟩, ⟨en, fl⟩, tim, ap⟩ := em
  simp only [Interrupts.get_fired_interrupt_bits] at hf ⊢
  simp at hg
  subst hg
  have hsp2 : ((sp + 65535) % 65536 + 65535) % 65536 = (sp + 65534) % 65536 := by omega
  have hfb : ((en &&& fl &&& 31 : Nat) != 0) = true := bne_iff_ne.mpr hf
  have htick : tick
      ⟨⟨⟨ra, rb, rc, rd, re, rf, rh, rl, pc, sp⟩, ⟨cyc⟩, ⟨true⟩, mem⟩, ⟨en, fl⟩, tim, ap⟩ =
      Interrupts.step
      ⟨⟨⟨ra, rb, rc, rd, re, rf, rh, rl, pc, sp⟩, ⟨cyc⟩, ⟨true⟩, mem⟩, ⟨en, fl⟩, tim, ap⟩ := by
    simp only [tick, Interrupts.interrupts_fired, Interrupts.get_fired_interrupt_bits, hfb,
      Bool.true_and, reduceIte]
  by_cases h0 : en &&& fl &&& 31 &&& 1 ≠ 0
  · have hgf : Interrupts.get_fired_interrupt
        ⟨⟨⟨ra, rb, rc, rd, re, rf, rh, rl, pc, sp⟩, ⟨0⟩, ⟨true⟩, mem⟩, ⟨en, fl⟩,
          tim, ap⟩ = some Interrupts.InterruptType.VBlank := by
      simp only [Interrupts.get_fired_interrupt, Interrupts.get_fired_interrupt_bits]
      rw [if_pos h0]
    have hstep : Interrupts.step
        ⟨⟨⟨ra, rb, rc, rd, re, rf, rh, rl, pc, sp⟩, ⟨cyc⟩, ⟨true⟩, mem⟩, ⟨en, fl⟩,
          tim, ap⟩ =
        ⟨⟨⟨ra, rb, rc, rd, re, rf, rh, rl, 64, (sp + 65534) % 65536⟩, ⟨3⟩, ⟨false⟩,
          write_mem (write_mem mem ((sp + 65535) % 65536) (pc >>> 8))
            ((sp + 65534) % 65536) (pc &&& 0xFF)⟩, ⟨en, fl &&& 254⟩, tim, ap⟩ := by
      simp only [Interrupts.step, Interrupts.interrupts_fired,
        Interrupts.get_fired_interrupt_bits, hfb, Bool.true_and, reduceIte]
      rw [hgf]
      simp only [Interrupts.turn_off_interrupt_flag, Interrupts.get_interrupt_isr,
        Interrupts.restart, store_byte_in_memory, run_extra_machine_cycle, add_cycles,
        hsp2]
    refine ⟨0, by norm_num, by simpa using h0, ?_, htick, ?_, ?_, ?_, ?_, ?_, ?_, ?_⟩
    · intro j hj
      exact absurd hj (Nat.not_lt_zero j)
    · rw [hstep]
    · rw [hstep]
    · rw [hstep]
      exact testBit_and_mask_false fl 254 0 (by decide)
    · rw [hstep]
      intro j hj hne
      interval_cases j <;>
        first
          | exact absurd rfl hne
          | exact testBit_and_mask fl 254 _ (by decide)
    · rw [hstep]
    · rw [hstep]
    · rw [hstep]
  ·
    by_cases h1 : en &&& fl &&& 31 &&& 2 ≠ 0
    · have hgf : Interrupts.get_fired_interrupt
          ⟨⟨⟨ra, rb, rc, rd, re, rf, rh, rl, pc, sp⟩, ⟨0⟩, ⟨true⟩, mem⟩, ⟨en, fl⟩,
            tim, ap⟩ = some Interrupts.InterruptType.LCDStatus := by
        simp only [Interrupts.get_fired_interrupt, Interrupts.get_fired_interrupt_bits]
        rw [if_neg h0, if_pos h1]
      have hstep : Interrupts.step
          ⟨⟨⟨ra, rb, rc, rd, re, rf, rh, rl, pc, sp⟩, ⟨cyc⟩, ⟨true⟩, mem⟩, ⟨en, fl⟩,
            tim, ap⟩ =
          ⟨⟨⟨ra, rb, rc, rd, re, rf, rh, rl, 72, (sp + 65534) % 65536⟩, ⟨3⟩, ⟨false⟩,
            write_mem (write_mem mem ((sp + 65535) % 65536) (pc >>> 8))
              ((sp + 65534) % 65536) (pc &&& 0xFF)⟩, ⟨en, fl &&& 253⟩, tim, ap⟩ := by
        simp only [Interrupts.step, Interrupts.interrupts_fired,
          Interrupts.get_fired_interrupt_bits, hfb, Bool.true_and, reduceIte]
        rw [hgf]
        simp only [Interrupts.turn_off_interrupt_flag, Interrupts.get_interrupt_isr,
          Interrupts.restart, store_byte_in_memory, run_extra_machine_cycle, add_cycles,
          hsp2]
      refine ⟨1, by norm_num, by simpa using h1, ?_, htick, ?_, ?_, ?_, ?_, ?_, ?_, ?_⟩
      · intro j hj
        interval_cases j
        · simpa using not_ne_iff.mp h0
      · rw [hstep]
      · rw [hstep]
      · rw [hstep]
        exact testBit_and_mask_false fl 253 1 (by decide)
      · rw [hstep]
        intro j hj hne
        interval_cases j <;>
          first
            | exact absurd rfl hne
            | exact testBit_and_mask fl 253 _ (by decide)
      · rw [hstep]
      · rw [hstep]
      · rw [hstep]
    ·
      by_cases h2 : en &&& fl &&& 31 &&& 4 ≠ 0
      · have hgf : Interrupts.get_fired_interrupt
            ⟨⟨⟨ra, rb, rc, rd, re, rf, rh, rl, pc, sp⟩, ⟨0⟩, ⟨true⟩, mem⟩, ⟨en, fl⟩,
              tim, ap⟩ = some Interrupts.InterruptType.TimerOverflow := by
          simp only [Interrupts.get_fired_interrupt, Interrupts.get_fired_interrupt_bits]
          rw [if_neg h0, if_neg h1, if_pos h2]
        have hstep : Interrupts.step
            ⟨⟨⟨ra, rb, rc, rd, re, rf, rh, rl, pc, sp⟩, ⟨cyc⟩, ⟨true⟩, mem⟩, ⟨en, fl⟩,
              tim, ap⟩ =
            ⟨⟨⟨ra, rb, rc, rd, re, rf, rh, rl, 80, (sp + 65534) % 65536⟩, ⟨3⟩, ⟨false⟩,
              write_mem (write_mem mem ((sp + 65535) % 65536) (pc >>> 8))
                ((sp + 65534) % 65536) (pc &&& 0xFF)⟩, ⟨en, fl &&& 251⟩, tim, ap⟩ := by
          simp only [Interrupts.step, Interrupts.interrupts_fired,
            Interrupts.get_fired_interrupt_bits, hfb, Bool.true_and, reduceIte]
          rw [hgf]
          simp only [Interrupts.turn_off_interrupt_flag, Interrupts.get_interrupt_isr,
            Interrupts.restart, store_byte_in_memory, run_extra_machine_cycle, add_cycles,
            hsp2]
        refine ⟨2, by norm_num, by simpa using h2, ?_, htick, ?_, ?_, ?_, ?_, ?_, ?_, ?_⟩
        · intro j hj
          interval_cases j
          · simpa using not_ne_iff.mp h0
          · simpa using not_ne_iff.mp h1
        · rw [hstep]
        · rw [hstep]
        · rw [hstep]
          exact testBit_and_mask_false fl 251 2 (by decide)
        · rw [hstep]
          intro j hj hne
          interval_cases j <;>
            first
              | exact absurd rfl hne
              | exact testBit_and_mask fl 251 _ (by decide)
        · rw [hstep]
        · rw [hstep]
        · rw [hstep]
      ·
        by_cases h3 : en &&& fl &&& 31 &&& 8 ≠ 0
        · have hgf : Interrupts.get_fired_interrupt
              ⟨⟨⟨ra, rb, rc, rd, re, rf, rh, rl, pc, sp⟩, ⟨0⟩, ⟨true⟩, mem⟩, ⟨en, fl⟩,
                tim, ap⟩ = some Interrupts.InterruptType.SerialLink := by
            simp only [Interrupts.get_fired_interrupt, Interrupts.get_fired_interrupt_bits]
            rw [if_neg h0, if_neg h1, if_neg h2, if_pos h3]
          have hstep : Interrupts.step
              ⟨⟨⟨ra, rb, rc, rd, re, rf, rh, rl, pc, sp⟩, ⟨cyc⟩, ⟨true⟩, mem⟩, ⟨en, fl⟩,
                tim, ap⟩ =
              ⟨⟨⟨ra, rb, rc, rd, re, rf, rh, rl, 88, (sp + 65534) % 65536⟩, ⟨3⟩, ⟨false⟩,
                write_mem (write_mem mem ((sp + 65535) % 65536) (pc >>> 8))
                  ((sp + 65534) % 65536) (pc &&& 0xFF)⟩, ⟨en, fl &&& 247⟩, tim, ap⟩ := by
            simp only [Interrupts.step, Interrupts.interrupts_fired,
              Interrupts.get_fired_interrupt_bits, hfb, Bool.true_and, reduceIte]
            rw [hgf]
            simp only [Interrupts.turn_off_interrupt_flag, Interrupts.get_interrupt_isr,
              Interrupts.restart, store_byte_in_memory, run_extra_machine_cycle, add_cycles,
              hsp2]
          refine ⟨3, by norm_num, by simpa using h3, ?_, htick, ?_, ?_, ?_, ?_, ?_, ?_, ?_⟩
          · intro j hj
            interval_cases j
            · simpa using not_ne_iff.mp h0
            · simpa using not_ne_iff.mp h1
            · simpa using not_ne_iff.mp h2
          · rw [hstep]
          · rw [hstep]
          · rw [hstep]
            exact testBit_and_mask_false fl 247 3 (by decide)
          · rw [hstep]
            intro j hj hne
            interval_cases j <;>
              first
                | exact absurd rfl hne
                | exact testBit_and_mask fl 247 _ (by decide)
          · rw [hstep]
          · rw [hstep]
          · rw [hstep]
        ·
          by_cases h4 : en &&& fl &&& 31 &&& 16 ≠ 0
          · have hgf : Interrupts.get_fired_interrupt
                ⟨⟨⟨ra, rb, rc, rd, re, rf, rh, rl, pc, sp⟩, ⟨0⟩, ⟨true⟩, mem⟩, ⟨en, fl⟩,
                  tim, ap⟩ = some Interrupts.InterruptType.JoypadPress := by
              simp only [Interrupts.get_fired_interrupt, Interrupts.get_fired_interrupt_bits]
              rw [if_neg h0, if_neg h1, if_neg h2, if_neg h3, if_pos h4]
            have hstep : Interrupts.step
                ⟨⟨⟨ra, rb, rc, rd, re, rf, rh, rl, pc, sp⟩, ⟨cyc⟩, ⟨true⟩, mem⟩, ⟨en, fl⟩,
                  tim, ap⟩ =
                ⟨⟨⟨ra, rb, rc, rd, re, rf, rh, rl, 96, (sp + 65534) % 65536⟩, ⟨3⟩, ⟨false⟩,
                  write_mem (write_mem mem ((sp + 65535) % 65536) (pc >>> 8))
                    ((sp + 65534) % 65536) (pc &&& 0xFF)⟩, ⟨en, fl &&& 239⟩, tim, ap⟩ := by
              simp only [Interrupts.step, Interrupts.interrupts_fired,
                Interrupts.get_fired_interrupt_bits, hfb, Bool.true_and, reduceIte]
              rw [hgf]
              simp only [Interrupts.turn_off_interrupt_flag, Interrupts.get_interrupt_isr,
                Interrupts.restart, store_byte_in_memory, run_extra_machine_cycle, add_cycles,
                hsp2]
            refine ⟨4, by norm_num, by simpa using h4, ?_, htick, ?_, ?_, ?_, ?_, ?_, ?_, ?_⟩
            · intro j hj
              interval_cases j
              · simpa using not_ne_iff.mp h0
              · simpa using not_ne_iff.mp h1
              · simpa using not_ne_iff.mp h2
              · simpa using not_ne_iff.mp h3
            · rw [hstep]
            · rw [hstep]
            · rw [hstep]
              exact testBit_and_mask_false fl 239 4 (by decide)
            · rw [hstep]
              intro j hj hne
              interval_cases j <;>
                first
                  | exact absurd rfl hne
                  | exact testBit_and_mask fl 239 _ (by decide)
            · rw [hstep]
            · rw [hstep]
            · rw [hstep]
          · exfalso
            apply hf
            have hlt : en &&& fl &&& 31 ≤ 31 := @Nat.and_le_right (en &&& fl) 31
            have e1 := Nat.and_one_is_mod (en &&& fl &&& 31)
            have e2 := and_two_pow_eq (en &&& fl &&& 31) 1
            have e4 := and_two_pow_eq (en &&& fl &&& 31) 2
            have e8 := and_two_pow_eq (en &&& fl &&& 31) 3
            have e16 := and_two_pow_eq (en &&& fl &&& 31) 4
            norm_num at e2 e4 e8 e16
            have k0 := not_ne_iff.mp h0
            have k1 := not_ne_iff.mp h1
            have k2 := not_ne_iff.mp h2
            have k3 := not_ne_iff.mp h3
            have k4 := not_ne_iff.mp h4
            omega

/-- Sample machine state used to instantiate claim C1: gate set, all five
sources enabled and pending. -/
def emC1 : Emulator :=
  { cpu :=
      { registers := ⟨0, 0, 0, 0, 0, 0, 0, 0, 0x1234, 0xFFFE⟩
        clock := ⟨8⟩
        interrupts := ⟨true⟩
        memory := fun _ => 0 }
    interrupts := { enabled := 0x1F, flags := 0x1F }
    timers := ⟨0, 0, 0, 0, 0, 0, 0⟩
    apu := initialize_apu }

/-- Witness for claim C1 at a concrete state: with every source enabled and
pending, the dispatched source exists as the theorem states (it is
vertical-blank, bit 0). -/
theorem C1_interrupt_dispatch_witness :
    emC1.cpu.interrupts.enabled = true ∧
    Interrupts.get_fired_interrupt_bits emC1 ≠ 0 ∧
    (∃ i, i < 5 ∧
      Interrupts.get_fired_interrupt_bits emC1 &&& (1 <<< i) ≠ 0 ∧
      (∀ j, j < i → Interrupts.get_fired_interrupt_bits emC1 &&& (1 <<< j) = 0) ∧
      tick emC1 = Interrupts.step emC1 ∧
      (Interrupts.step emC1).cpu.interrupts.enabled = false ∧
      (Interrupts.step emC1).interrupts.enabled = emC1.interrupts.enabled ∧
      Nat.testBit (Interrupts.step emC1).interrupts.flags i = false ∧
      (∀ j, j < 8 → j ≠ i → Nat.testBit (Interrupts.step emC1).interrupts.flags j =
        Nat.testBit emC1.interrupts.flags j) ∧
      (Interrupts.step emC1).cpu.registers.program_counter = 0x40 + 8 * i ∧
      (Interrupts.step emC1).cpu.registers.stack_pointer =
        (emC1.cpu.registers.stack_pointer + 65534) % 65536 ∧
      (Interrupts.step emC1).cpu.memory =
        write_mem
          (write_mem emC1.cpu.memory ((emC1.cpu.registers.stack_pointer + 65535) % 65536)
            (emC1.cpu.registers.program_counter >>> 8))
          ((emC1.cpu.registers.stack_pointer + 65534) % 65536)
          (emC1.cpu.registers.program_counter &&& 0xFF)) :=
  ⟨rfl, by decide, C1_interrupt_dispatch emC1 rfl (by decide)⟩
